import Mathlib

/-!
Verification development for the UniWRTC negotiation core.

The definitions below are shallow embeddings of the JavaScript source:
  * role assignment and perfect-negotiation helpers from src/src/main.js
    (shouldInitiateWith, isPoliteFor),
  * the inbound signaling handler of src/src/main.js (onPayload at lines
    761-1005 of the first file version) together with its helper functions
    (sendSignal, maybeProbePeer, resyncPeerSession, resetPeerConnection,
    ensurePeerConnection, addIceCandidateSafely, flushPendingIce,
    createPeerConnection),
  * the per-peer outbound ICE candidate batcher (pc.onicecandidate),
  * the transport arbitration layer (setPreferredSource, data channel
    open/close handlers, tracker connect/close handlers),
  * the coordinator election of src/src/coordinator.js (second file
    version, the force-parameterised triggerCoordinatorElection).

JavaScript maps keyed by peer id are modeled as functions from String;
JavaScript truthiness of optional strings is made explicit via
optStrTruthy.  Date.now() is threaded through as an explicit clock value.
The file is laid out with all definitions first, followed by all lemmas
and theorems.
-/

namespace UniWRTC

/-- JS truthiness of a possibly-absent string: undefined/null and the
empty string are falsy. -/
def optStrTruthy : Option String → Bool
  | none => false
  | some s => decide (s ≠ "")

/-- Embeds shouldInitiateWith from src/src/main.js lines 445-449:
a falsy local peer id yields false, otherwise the local id must compare
lexicographically before the remote id.  The comparison is done on the
character lists, which coincides with the string order
(String.lt_iff_toList_lt) and evaluates in the kernel. -/
def shouldInitiateWith (myPeerId peerId : String) : Bool :=
  if myPeerId = "" then false
  else decide (myPeerId.data < peerId.data)

/-- Embeds isPoliteFor from src/src/main.js lines 451-454: the polite role
is the negation of the initiator role. -/
def isPoliteFor (myPeerId peerId : String) : Bool :=
  !shouldInitiateWith myPeerId peerId

/-! ## Coordinator election (src/src/coordinator.js, second file version) -/

/-- One entry of PeerCoordinator.knownPeers. -/
structure PeerInfo where
  joinedAt : Nat
  isAlive : Bool
  lastSeen : Nat
  deriving Repr, DecidableEq

/-- The election-relevant fields of a PeerCoordinator instance.  The two
interval timers are abstracted to the Boolean heartbeatOn (whether the
heartbeat interval is currently installed). -/
structure CoordState where
  myPeerId : String
  coordinatorId : Option String
  isCoordinator : Bool
  knownPeers : List (String × PeerInfo)
  heartbeatOn : Bool
  deriving Repr, DecidableEq

def PEER_ALIVE_TIMEOUT : Nat := 20000

/-- Map.get on the knownPeers association list. -/
def knownPeersGet (l : List (String × PeerInfo)) (k : String) : Option PeerInfo :=
  (l.find? (fun kv => kv.1 = k)).map Prod.snd

/-- The candidates array computed at the top of triggerCoordinatorElection
(coordinator.js lines 472-476): known peer ids last seen within 20s. -/
def electionCandidates (s : CoordState) (now : Nat) : List String :=
  (s.knownPeers.map Prod.fst).filter (fun id =>
    match knownPeersGet s.knownPeers id with
    | some peer => decide (now - peer.lastSeen < PEER_ALIVE_TIMEOUT)
    | none => false)

/-- Lexicographic string comparison as a Boolean, the ordering used by
the JS Array.prototype.sort call on candidate peer ids. -/
def strLeB (a b : String) : Bool := decide (a ≤ b)

/-- Embeds PeerCoordinator.triggerCoordinatorElection(force)
(coordinator.js lines 469-509, second file version): alive candidates are
sorted lexicographically and the head is adopted when forced or changed;
with no alive candidate the coordinator is cleared and the heartbeat
stopped.  The source tests candidates.length === 0 before sorting; since
sorting preserves emptiness, the test is folded into the match on the
sorted list. -/
def triggerCoordinatorElection (s : CoordState) (force : Bool) (now : Nat) :
    CoordState :=
  match (electionCandidates s now).mergeSort strLeB with
  | [] =>
    { s with coordinatorId := none, isCoordinator := false, heartbeatOn := false }
  | newCoordinator :: _ =>
    if force || s.coordinatorId ≠ some newCoordinator then
      { s with coordinatorId := some newCoordinator,
               isCoordinator := decide (newCoordinator = s.myPeerId),
               heartbeatOn := decide (newCoordinator = s.myPeerId) }
    else s

/-- Concrete coordinator state used by the C9 witness: two alive peers. -/
def c9State : CoordState :=
  { myPeerId := "bbb", coordinatorId := none, isCoordinator := false,
    knownPeers := [("bbb", ⟨0, true, 900⟩), ("aaa", ⟨0, true, 500⟩)],
    heartbeatOn := false }

/-- Concrete coordinator state whose peers are all stale at time 100000. -/
def c9EmptyState : CoordState :=
  { myPeerId := "bbb", coordinatorId := some "aaa", isCoordinator := false,
    knownPeers := [("aaa", ⟨0, true, 500⟩)], heartbeatOn := false }

/-! ## Transport arbitration (src/src/main.js, first file version) -/

/-- Model of JS String.prototype.trim: strips whitespace from both ends.
Defined over the character list so that it evaluates in the kernel. -/
def jsTrim (s : String) : String :=
  String.mk
    (((s.data.dropWhile Char.isWhitespace).reverse.dropWhile
      Char.isWhitespace).reverse)

/-- Pointwise update of a string-keyed map modeled as a function. -/
def updF {α : Type} (f : String → α) (k : String) (v : α) : String → α :=
  fun x => if x = k then v else f x

/-- JS a || b over possibly-absent strings (empty string is falsy). -/
def jsOr (a b : Option String) : Option String :=
  if optStrTruthy a then a else b

/-- An RTCPeerConnection as seen by the arbitration layer: an identity and
whether close() has been called on it. -/
structure RtcConn where
  gen : Nat
  closed : Bool
  deriving Repr, DecidableEq

/-- The maps touched by the transport-arbitration code paths of
src/src/main.js: setPreferredSource (lines 60-94), setupDataChannel
onopen/onclose (lines 1487-1543) and the tracker peer connect/close
handlers (lines 1740-1771).  Booleans stand for map membership. -/
structure ArbState where
  peerPreferredSource : String → Option String
  peerSources : String → Option String
  peerConnections : String → Option RtcConn
  dataChannels : String → Bool
  trackerPeers : String → Bool
  rtcConnectedAt : String → Option Nat
  trackerConnectedAt : String → Option Nat
  lastSignalSource : String → Option String

/-- Embeds setPreferredSource (main.js lines 60-94): first write for the
trimmed peer id wins; a later call for a peer that already has a
preference returns without touching anything.  On a first write the
losing transport's connection for that peer is closed. -/
def setPreferredSource (s : ArbState) (peerId : String) (source : Option String) :
    ArbState :=
  match source with
  | none => s
  | some src =>
    if src = "" then s
    else
      let normalized := jsTrim peerId
      if (s.peerPreferredSource normalized).isSome then s
      else
        let s1 := { s with
          peerPreferredSource := updF s.peerPreferredSource normalized (some src) }
        if src = "Tracker" then
          match s1.peerConnections peerId with
          | some _ =>
            { s1 with peerConnections := updF s1.peerConnections peerId none,
                      dataChannels := updF s1.dataChannels peerId false }
          | none => s1
        else
          if s1.trackerPeers peerId then
            { s1 with trackerPeers := updF s1.trackerPeers peerId false }
          else s1

/-- The chosen source computed in the data channel onopen handler
(main.js line 1498): sourceHint || lastSignal || Nostr. -/
def dcChosen (s : ArbState) (peerId : String) (sourceHint : Option String) :
    String :=
  (jsOr sourceHint (jsOr (s.lastSignalSource peerId) (some "Nostr"))).getD "Nostr"

/-- Events consumed by the arbitration layer: a data channel opening with
its source hint, a data channel closing, a tracker peer connecting, a
tracker peer closing. -/
inductive ArbEvent
  | dcOpen (peerId : String) (sourceHint : Option String) (now : Nat)
  | dcClose (peerId : String)
  | trackerConnect (peerId : String) (now : Nat)
  | trackerClose (peerId : String)

/-- Marks the RTCPeerConnection of a peer closed, if one exists. -/
def closeRtc (f : String → Option RtcConn) (peerId : String) :
    String → Option RtcConn :=
  match f peerId with
  | some c => updF f peerId (some { c with closed := true })
  | none => f

/-- Records the discovery source of a peer if none is known yet (main.js
lines 1513-1515 and 1744-1746). -/
def recordSource (s : ArbState) (peerId : String) (chosen : String) : ArbState :=
  if (s.peerSources peerId).isSome then s
  else { s with peerSources := updF s.peerSources peerId (some chosen) }

/-- dataChannel.onopen (main.js lines 1494-1517): record the connect
time; if another transport already won, tear the channel and connection
down (the preference is left alone); otherwise record the source and run
setPreferredSource. -/
def dcOpenStep (s : ArbState) (peerId : String) (sourceHint : Option String)
    (now : Nat) : ArbState :=
  let s1 := { s with rtcConnectedAt := updF s.rtcConnectedAt peerId (some now) }
  let chosen := dcChosen s1 peerId sourceHint
  let preferred := s1.peerPreferredSource (jsTrim peerId)
  if optStrTruthy preferred && preferred ≠ some chosen then
    { s1 with peerConnections := closeRtc s1.peerConnections peerId,
              dataChannels := updF s1.dataChannels peerId false }
  else
    setPreferredSource (recordSource s1 peerId chosen) peerId (some chosen)

/-- dataChannel.onclose (main.js lines 1533-1540): the channel entry and
connect time are deleted but peerPreferredSource is deliberately kept. -/
def dcCloseStep (s : ArbState) (peerId : String) : ArbState :=
  { s with dataChannels := updF s.dataChannels peerId false,
           rtcConnectedAt := updF s.rtcConnectedAt peerId none }

/-- Tracker peer connect handler (main.js lines 1740-1753). -/
def trackerConnectStep (s : ArbState) (peerId : String) (now : Nat) : ArbState :=
  let s1 := { s with
    trackerConnectedAt := updF s.trackerConnectedAt peerId (some now) }
  let s3 := setPreferredSource (recordSource s1 peerId "Tracker") peerId
    (some "Tracker")
  let preferred := s3.peerPreferredSource (jsTrim peerId)
  if optStrTruthy preferred && preferred ≠ some "Tracker" then
    { s3 with trackerPeers := updF s3.trackerPeers peerId false }
  else s3

/-- Tracker peer close handler (main.js lines 1764-1771). -/
def trackerCloseStep (s : ArbState) (peerId : String) : ArbState :=
  { s with trackerPeers := updF s.trackerPeers peerId false,
           trackerConnectedAt := updF s.trackerConnectedAt peerId none }

def arbStep (s : ArbState) (e : ArbEvent) : ArbState :=
  match e with
  | .dcOpen peerId sourceHint now => dcOpenStep s peerId sourceHint now
  | .dcClose peerId => dcCloseStep s peerId
  | .trackerConnect peerId now => trackerConnectStep s peerId now
  | .trackerClose peerId => trackerCloseStep s peerId

/-- Concrete arbitration state for the C7 witness: Nostr already won for
peer "peerx", which still has a live connection and channel. -/
def c7State : ArbState :=
  { peerPreferredSource := updF (fun _ => none) "peerx" (some "Nostr"),
    peerSources := updF (fun _ => none) "peerx" (some "Nostr"),
    peerConnections := updF (fun _ => none) "peerx" (some ⟨0, false⟩),
    dataChannels := updF (fun _ => false) "peerx" true,
    trackerPeers := fun _ => false,
    rtcConnectedAt := fun _ => none,
    trackerConnectedAt := fun _ => none,
    lastSignalSource := fun _ => none }

/-! ## Outbound ICE candidate batcher (main.js lines 1394-1437) -/

/-- One entry of outboundIceBatches: the pending candidate list and the
pending debounce timer, recorded as its fire deadline. -/
structure IceBatchEntry where
  candidates : List Nat
  timer : Option Nat
  deriving Repr, DecidableEq

/-- Events seen by one peer's batcher: a local candidate (with arrival
time), the end-of-candidates signal (a null candidate), and the debounce
timer firing. -/
inductive IceEvent
  | cand (c : Nat) (now : Nat)
  | endOfCand (now : Nat)
  | timerFire

/-- The flush closure (main.js lines 1418-1426): clear the timer, and if
any candidates are pending send them all as one batch. -/
def iceFlush (e : IceBatchEntry) : IceBatchEntry × List (List Nat) :=
  let e1 : IceBatchEntry := { e with timer := none }
  if e1.candidates.isEmpty then (e1, [])
  else ({ e1 with candidates := [] }, [e1.candidates])

/-- One batcher step, embedding pc.onicecandidate (main.js lines
1411-1437) on the Nostr signaling path: a candidate is appended and a
timer armed only when none is pending; a null candidate flushes
immediately; the timer callback is the same flush. -/
def iceStep (e : IceBatchEntry) (ev : IceEvent) : IceBatchEntry × List (List Nat) :=
  match ev with
  | .cand c now =>
    let e1 : IceBatchEntry := { e with candidates := e.candidates ++ [c] }
    match e1.timer with
    | none => ({ e1 with timer := some (now + 250) }, [])
    | some _ => (e1, [])
  | .endOfCand _ => iceFlush e
  | .timerFire => iceFlush e

/-- Runs a sequence of batcher events, collecting all flushed batches. -/
def iceRun : IceBatchEntry → List IceEvent → IceBatchEntry × List (List Nat)
  | e, [] => (e, [])
  | e, ev :: evs =>
    let r := iceStep e ev
    let rest := iceRun r.1 evs
    (rest.1, r.2 ++ rest.2)

/-- Turns a list of (candidate, arrival time) pairs into batcher events. -/
def candEvents (pairs : List (Nat × Nat)) : List IceEvent :=
  pairs.map (fun p => IceEvent.cand p.1 p.2)

/-! ## The inbound signaling handler (src/src/main.js, first file version)

onPayload below embeds the onPayload callback at main.js lines 761-1005
together with the helper functions it calls.  Encryption wrapping and
unwrapping is transparent to every field the handlers read, so payloads
are modeled in the clear; UI updates and log calls carry no state.  ICE
candidates are opaque values modeled as Nat.  Date.now() is an explicit
argument. -/

/-- RTCPeerConnection signaling states reachable through this handler. -/
inductive Sig
  | stable
  | haveLocalOffer
  | haveRemoteOffer
  deriving Repr, DecidableEq

/-- An RTCPeerConnection owned by the negotiation layer: an identity
(generation), its signaling state, whether a remote description has been
applied, and the candidates added so far. -/
structure Conn where
  gen : Nat
  sig : Sig
  remoteDescSet : Bool
  applied : List Nat
  deriving Repr, DecidableEq

/-- A peerConnections map entry: the JS code stores null placeholders for
merely-seen peers and RTCPeerConnection objects for real connections. -/
inductive PCEntry
  | nullEntry
  | pc (c : Conn)
  deriving Repr, DecidableEq

/-- One peerProbeState entry (main.js lines 525 and 555). -/
structure ProbeRec where
  session : Option String
  ts : Nat
  probeId : String
  deriving Repr, DecidableEq

/-- One outbound message as assembled by sendSignal / sendSignalToSession
(only the fields the embedded handlers produce or read). -/
structure SentMsg where
  toPeer : Option String
  ptype : String
  toSession : Option String
  fromSession : String
  probeId : Option String
  sdpType : Option String
  candidates : Option (List Nat)
  deriving Repr, DecidableEq

/-- The module-level mutable state of main.js touched by the signaling
handler.  closedGens records the generations of connections that had
close() called, so that theorems can speak about destroyed sessions;
probeSeq drives fresh probe-id generation (Math.random in the source). -/
structure MainState where
  myPeerId : String
  mySessionNonce : String
  nostrUp : Bool
  peerSessions : String → Option String
  peerProbeState : String → Option ProbeRec
  peerResyncState : String → Option Nat
  readyPeers : String → Bool
  peerConnections : String → Option PCEntry
  pendingIce : String → List Nat
  dataChannelsN : String → Bool
  peerSourcesN : String → Option String
  initiatedPeers : String → Bool
  deferredHelloPeers : String → Bool
  nextGen : Nat
  closedGens : List Nat
  sent : List SentMsg
  probeSeq : Nat

/-- An inbound payload after decryption: the fields the handler reads.
Absent fields are none; hasSdp is the truthiness of payload.sdp. -/
structure Payload where
  ptype : String
  toPeer : Option String := none
  toSession : Option String := none
  fromSession : Option String := none
  session : Option String := none
  probeId : Option String := none
  hasSdp : Bool := false
  sdpType : Option String := none
  candidate : Option Nat := none
  candidates : Option (List Nat) := none
  deriving Repr, DecidableEq

/-- Fresh probe id from the generation counter (stands for the
Math.random based id of main.js lines 524 and 552; always nonempty). -/
def freshProbeId (n : Nat) : String := "pr" ++ Nat.repr n

/-- Embeds sendSignal (main.js lines 456-486).  none models the function
throwing: not connected, or a targeted non-probe message without a known
peer session. -/
def sendSignal (s : MainState) (toPeer : Option String) (ptype : String)
    (probeId : Option String) (sdpType : Option String)
    (candidates : Option (List Nat)) : Option MainState :=
  if !s.nostrUp then none
  else
    let isBroadcast := !(optStrTruthy toPeer)
    let toSession : Option String :=
      if isBroadcast then none
      else match toPeer with
        | some t => s.peerSessions t
        | none => none
    let needsToSession := !isBroadcast && ptype ≠ "probe"
    if needsToSession && !(optStrTruthy toSession) then none
    else some { s with sent := s.sent ++
      [{ toPeer := toPeer, ptype := ptype,
         toSession := if needsToSession then toSession else none,
         fromSession := s.mySessionNonce, probeId := probeId,
         sdpType := sdpType, candidates := candidates }] }

/-- Embeds sendSignalToSession (main.js lines 488-513): the toSession is
supplied by the caller and must be truthy. -/
def sendSignalToSession (s : MainState) (toPeer : String) (ptype : String)
    (probeId : Option String) (toSession : Option String) : Option MainState :=
  if !s.nostrUp then none
  else if !(optStrTruthy toSession) then none
  else some { s with sent := s.sent ++
    [{ toPeer := some toPeer, ptype := ptype, toSession := toSession,
       fromSession := s.mySessionNonce, probeId := probeId,
       sdpType := none, candidates := none }] }

/-- Embeds maybeProbePeer (main.js lines 515-541): the deterministic
initiator probes a peer whose session is known and not already covered by
the latest probe record; the send failure is caught and logged. -/
def maybeProbePeer (s : MainState) (peerId : String) (now : Nat) : MainState :=
  if !s.nostrUp then s
  else match s.peerSessions peerId with
  | none => s
  | some session =>
    if session = "" then s
    else if !(shouldInitiateWith s.myPeerId peerId) then s
    else
      let skip : Bool := match s.peerProbeState peerId with
        | some last => decide (last.session = some session)
        | none => false
      if skip then s
      else
        let probeId := freshProbeId s.probeSeq
        let s1 := { s with
          probeSeq := s.probeSeq + 1,
          peerProbeState := updF s.peerProbeState peerId
            (some { session := some session, ts := now, probeId := probeId }) }
        (sendSignal s1 (some peerId) "probe" (some probeId) none none).getD s1

/-- Embeds resyncPeerSession (main.js lines 544-563): probes the sender
to resynchronize sessions, throttled to one attempt per 3000ms per peer;
the probe record is stored before the send, whose failure is caught. -/
def resyncPeerSession (s : MainState) (peerId : String) (now : Nat) : MainState :=
  if !s.nostrUp then s
  else
    let last := (s.peerResyncState peerId).getD 0
    if now - last < 3000 then s
    else
      let s0 := { s with
        peerResyncState := updF s.peerResyncState peerId (some now) }
      let probeId := freshProbeId s0.probeSeq
      let prevSession : Option String :=
        if optStrTruthy (s0.peerSessions peerId) then s0.peerSessions peerId
        else none
      let s1 := { s0 with
        probeSeq := s0.probeSeq + 1,
        peerProbeState := updF s0.peerProbeState peerId
          (some { session := prevSession, ts := now, probeId := probeId }) }
      (sendSignal s1 (some peerId) "probe" (some probeId) none none).getD s1

/-- Embeds createPeerConnection (main.js lines 1371-1485) on the Nostr
path: an existing real connection is returned as-is; otherwise a fresh
stable connection replaces any placeholder, and an initiating side opens
a data channel, sets a local offer and sends it (send failures caught). -/
def createPeerConnection (s : MainState) (peerId : String)
    (shouldInitiate : Bool) : MainState × Option Conn :=
  match s.peerConnections peerId with
  | some (.pc c) => (s, some c)
  | _ =>
    let g := s.nextGen
    let c0 : Conn :=
      { gen := g, sig := .stable, remoteDescSet := false, applied := [] }
    let s1 := { s with
      nextGen := g + 1,
      peerConnections := updF s.peerConnections peerId (some (.pc c0)),
      pendingIce := updF s.pendingIce peerId [] }
    if shouldInitiate then
      let s2 := if s1.dataChannelsN peerId then s1
        else { s1 with dataChannelsN := updF s1.dataChannelsN peerId true }
      let c1 : Conn := { c0 with sig := .haveLocalOffer }
      let s3 := { s2 with
        peerConnections := updF s2.peerConnections peerId (some (.pc c1)),
        initiatedPeers := updF s2.initiatedPeers peerId true }
      let s4 := (sendSignal s3 (some peerId) "signal-offer" none
        (some "offer") none).getD s3
      (s4, some c1)
    else (s1, some c0)

/-- Embeds ensurePeerConnection (main.js lines 597-612): an initiator may
only create a connection once the peer is ready (probe-ack received). -/
def ensurePeerConnection (s : MainState) (peerId : String) :
    MainState × Option Conn :=
  if peerId = "" ∨ peerId = s.myPeerId then (s, none)
  else match s.peerConnections peerId with
  | some (.pc c) => (s, some c)
  | _ =>
    let initiator := shouldInitiateWith s.myPeerId peerId
    if initiator && !s.readyPeers peerId then (s, none)
    else createPeerConnection s peerId initiator

/-- Embeds resetPeerConnection (main.js lines 571-595): close the owned
connection, discard its queued candidates, close the data channel, then
recreate through ensurePeerConnection. -/
def resetPeerConnection (s : MainState) (peerId : String) :
    MainState × Option Conn :=
  let s1 := match s.peerConnections peerId with
    | some (.pc c) => { s with closedGens := s.closedGens ++ [c.gen] }
    | _ => s
  let s2 := { s1 with
    peerConnections := updF s1.peerConnections peerId none,
    pendingIce := updF s1.pendingIce peerId [],
    dataChannelsN := updF s1.dataChannelsN peerId false }
  ensurePeerConnection s2 peerId

/-- Embeds addIceCandidateSafely (main.js lines 614-626): queue until a
remote description is applied, then add directly. -/
def addIceCandidateSafely (s : MainState) (peerId : String) (cand : Nat) :
    MainState :=
  match s.peerConnections peerId with
  | some (.pc c) =>
    if !c.remoteDescSet then
      { s with
        pendingIce := updF s.pendingIce peerId (s.pendingIce peerId ++ [cand]) }
    else
      { s with
        peerConnections := updF s.peerConnections peerId
          (some (.pc { c with applied := c.applied ++ [cand] })) }
  | _ => s

/-- Embeds flushPendingIce (main.js lines 628-644). -/
def flushPendingIce (s : MainState) (peerId : String) : MainState :=
  match s.peerConnections peerId with
  | some (.pc c) =>
    if !c.remoteDescSet then s
    else
      let list := s.pendingIce peerId
      if list.isEmpty then s
      else
        { s with
          pendingIce := updF s.pendingIce peerId [],
          peerConnections := updF s.peerConnections peerId
            (some (.pc { c with applied := c.applied ++ list })) }
  | _ => s

/-- The seen-peer registration at main.js lines 789-794. -/
def registerSeen (s : MainState) (peerId : String) : MainState :=
  match s.peerConnections peerId with
  | some _ => s
  | none =>
    { s with
      peerConnections := updF s.peerConnections peerId (some .nullEntry),
      peerSourcesN := updF s.peerSourcesN peerId (some "Nostr") }

/-- Session learning from a live message's fromSession, shared by the
probe handler (main.js lines 836-844) and the targeted-message learning
(lines 869-877): requires a string of length at least 6; on a new or
rotated value it stores the session and drops the peer from readyPeers. -/
def learnPeerSession (s : MainState) (peerId : String)
    (fromSession : Option String) : MainState :=
  match fromSession with
  | some fs =>
    if fs.length < 6 then s
    else
      let prev := s.peerSessions peerId
      if !(optStrTruthy prev) || prev ≠ some fs then
        { s with
          peerSessions := updF s.peerSessions peerId (some fs),
          readyPeers := updF s.readyPeers peerId false }
      else s
  | none => s

/-- The hello branch (main.js lines 804-833). -/
def handleHello (s : MainState) (peerId : String) (p : Payload) (now : Nat) :
    MainState :=
  if s.myPeerId = "" ∨ s.mySessionNonce = "" then s
  else match p.session with
  | none => s
  | some sess =>
    if sess.length < 6 then s
    else
      let prev := s.peerSessions peerId
      let s1 := { s with peerSessions := updF s.peerSessions peerId (some sess) }
      let s2 := if optStrTruthy prev && prev ≠ some sess then
          { s1 with readyPeers := updF s1.readyPeers peerId false }
        else s1
      let s3 := { s2 with
        deferredHelloPeers := updF s2.deferredHelloPeers peerId true }
      maybeProbePeer s3 peerId now

/-- The probe branch (main.js lines 835-854): learn the session, then
unconditionally acknowledge toward the probe's fromSession. -/
def handleProbe (s : MainState) (peerId : String) (p : Payload) : MainState :=
  let s1 := learnPeerSession s peerId p.fromSession
  (sendSignalToSession s1 peerId "probe-ack" p.probeId p.fromSession).getD s1

/-- The session refresh inside the probe-ack branch (main.js lines
895-904): a targeted ack may carry a rotated fromSession, which is
accepted into peerSessions and into the stored probe record. -/
def probeAckSessionUpdate (s : MainState) (peerId : String) (last : ProbeRec)
    (fsOpt : Option String) : MainState :=
  match fsOpt with
  | some fs =>
    if fs.length < 6 then s
    else
      let s1a := if s.peerSessions peerId ≠ some fs then
          { s with peerSessions := updF s.peerSessions peerId (some fs) }
        else s
      if last.session ≠ some fs then
        let pr2 : ProbeRec := { last with session := some fs }
        let pm2 := updF s1a.peerProbeState peerId (some pr2)
        { s1a with peerProbeState := pm2 }
      else s1a
  | none => s

/-- The probe-ack branch (main.js lines 879-916). -/
def handleProbeAck (s : MainState) (peerId : String) (p : Payload) (now : Nat) :
    MainState :=
  match s.peerProbeState peerId with
  | none => s
  | some last =>
    if last.probeId = "" then s
    else match p.probeId with
    | none => s
    | some pid =>
      if pid = "" then s
      else if pid ≠ last.probeId then s
      else
        let s1 := probeAckSessionUpdate s peerId last p.fromSession
        if now - last.ts > 30000 then s1
        else
          let s2 := { s1 with readyPeers := updF s1.readyPeers peerId true }
          if shouldInitiateWith s2.myPeerId peerId then
            (ensurePeerConnection s2 peerId).1
          else s2

/-- setRemoteDescription with an offer: legal only from stable (the
collision handling above the call guarantees it); none models the
InvalidStateError that would abort the handler. -/
def applyRemoteOffer (c : Conn) : Option Conn :=
  if c.sig = .stable then
    some { c with sig := .haveRemoteOffer, remoteDescSet := true }
  else none

/-- The tail of the signal-offer branch after collision handling
(main.js lines 930-964): type-check the sdp, apply the remote offer,
flush queued candidates, answer and return to stable. -/
def offerAccept (s4 : MainState) (peerId : String) (p : Payload) :
    MainState :=
  match s4.peerConnections peerId with
  | some (.pc pc2) =>
    if (match p.sdpType with
        | some t => t ≠ "" && t ≠ "offer"
        | none => false) then s4
    else
      match applyRemoteOffer pc2 with
      | none => s4
      | some pc3 =>
        let pm5 := updF s4.peerConnections peerId (some (.pc pc3))
        let s5 := { s4 with peerConnections := pm5 }
        let s6 := flushPendingIce s5 peerId
        match s6.peerConnections peerId with
        | some (.pc pc4) =>
          if pc4.sig ≠ .haveRemoteOffer then s6
          else
            let pc5 : Conn := { pc4 with sig := .stable }
            let pm7 := updF s6.peerConnections peerId (some (.pc pc5))
            let s7 := { s6 with peerConnections := pm7 }
            (sendSignal s7 (some peerId) "signal-answer" none
              (some "answer") none).getD s7
        | _ => s6
  | _ => s4

/-- The signal-offer branch (main.js lines 918-965). -/
def handleOffer (s : MainState) (peerId : String) (p : Payload) : MainState :=
  let r1 := ensurePeerConnection s peerId
  let r2 := match r1.2 with
    | none => resetPeerConnection r1.1 peerId
    | some c => (r1.1, some c)
  match r2.2 with
  | none => r2.1
  | some pc0 =>
    let s0 := r2.1
    let offerCollision := pc0.sig ≠ .stable
    if offerCollision && !(isPoliteFor s0.myPeerId peerId) then s0
    else
      let r3 := if offerCollision && isPoliteFor s0.myPeerId peerId then
          resetPeerConnection s0 peerId
        else (s0, some pc0)
      match r3.2 with
      | none => r3.1
      | some _ => offerAccept r3.1 peerId p

/-- The signal-answer branch (main.js lines 967-984): an answer is
applied only in state have-local-offer, then queued candidates flush. -/
def handleAnswer (s : MainState) (peerId : String) (p : Payload) : MainState :=
  match s.peerConnections peerId with
  | some (.pc pc0) =>
    if (match p.sdpType with
        | some t => t ≠ "" && t ≠ "answer"
        | none => false) then s
    else if pc0.sig ≠ .haveLocalOffer then s
    else
      let pc1 : Conn := { pc0 with sig := .stable, remoteDescSet := true }
      let pm1 := updF s.peerConnections peerId (some (.pc pc1))
      let s1 := { s with peerConnections := pm1 }
      flushPendingIce s1 peerId
  | _ => s

/-- The signal-ice branch (main.js lines 986-994). -/
def handleIce (s : MainState) (peerId : String) (p : Payload) : MainState :=
  match p.candidate with
  | some c => addIceCandidateSafely s peerId c
  | none => s

/-- The signal-ice-batch branch (main.js lines 996-1005). -/
def handleIceBatch (s : MainState) (peerId : String) (p : Payload) : MainState :=
  match p.candidates with
  | some cs => cs.foldl (fun st c => addIceCandidateSafely st peerId c) s
  | none => s

/-- The per-type dispatch for messages that passed the addressing checks
(main.js lines 879-1005). -/
def dispatchValidated (s1 : MainState) (sender : String) (p : Payload)
    (now : Nat) : MainState :=
  if p.ptype = "probe-ack" then handleProbeAck s1 sender p now
  else if p.ptype = "signal-offer" && p.hasSdp then handleOffer s1 sender p
  else if p.ptype = "signal-answer" && p.hasSdp then handleAnswer s1 sender p
  else if p.ptype = "signal-ice" && p.candidate.isSome then
    handleIce s1 sender p
  else if p.ptype = "signal-ice-batch" && p.candidates.isSome then
    handleIceBatch s1 sender p
  else s1

/-- Embeds the onPayload callback (main.js lines 761-1005): drop own and
empty senders, register the sender as seen, dispatch hello and probe
before any session validation, drop and resync on a toSession mismatch,
drop foreign targets, learn the sender session from a validated targeted
message, then dispatch on the message type. -/
def onPayload (s : MainState) (sender : String) (p : Payload) (now : Nat) :
    MainState :=
  if sender = "" ∨ sender = s.myPeerId then s
  else
    let s0 := registerSeen s sender
    if p.ptype = "hello" then handleHello s0 sender p now
    else if p.ptype = "probe" then handleProbe s0 sender p
    else if optStrTruthy p.toSession && p.toSession ≠ some s0.mySessionNonce then
      resyncPeerSession s0 sender now
    else if optStrTruthy p.toPeer && p.toPeer ≠ some s0.myPeerId then s0
    else dispatchValidated (learnPeerSession s0 sender p.fromSession) sender
      p now

/-- Base concrete state for witnesses: local peer "aaaaaa" (session
"sessa1"), nothing known yet. -/
def mainBase : MainState :=
  { myPeerId := "aaaaaa", mySessionNonce := "sessa1", nostrUp := true,
    peerSessions := fun _ => none, peerProbeState := fun _ => none,
    peerResyncState := fun _ => none, readyPeers := fun _ => false,
    peerConnections := fun _ => none, pendingIce := fun _ => [],
    dataChannelsN := fun _ => false, peerSourcesN := fun _ => none,
    initiatedPeers := fun _ => false, deferredHelloPeers := fun _ => false,
    nextGen := 0, closedGens := [], sent := [], probeSeq := 0 }

/-- A probe issued to peer "bbbbbb" at time 0 with id "p1". -/
def c3ProbeRec : ProbeRec :=
  { session := some "sessb1", ts := 0, probeId := "p1" }

/-- State in which "bbbbbb" has a known session and an outstanding probe. -/
def c3State : MainState :=
  { mainBase with
    peerSessions := updF mainBase.peerSessions "bbbbbb" (some "sessb1"),
    peerProbeState := updF mainBase.peerProbeState "bbbbbb" (some c3ProbeRec) }

/-- A correctly addressed probe-ack for c3State's outstanding probe. -/
def c3AckPayload : Payload :=
  { ptype := "probe-ack", toPeer := some "aaaaaa", toSession := some "sessa1",
    fromSession := some "sessb1", probeId := some "p1" }

/-- An addressed probe message carrying a fromSession. -/
def c4ProbePayload : Payload :=
  { ptype := "probe", toPeer := some "aaaaaa", fromSession := some "sessb1",
    probeId := some "p1" }

/-- An addressed probe whose toSession does not match the receiver. -/
def c6ProbeWrongSession : Payload :=
  { ptype := "probe", toPeer := some "aaaaaa", toSession := some "WRONGSESS",
    fromSession := some "sessb1", probeId := some "p1" }

/-- An addressed offer whose toSession does not match the receiver. -/
def c6OfferWrongSession : Payload :=
  { ptype := "signal-offer", toPeer := some "aaaaaa",
    toSession := some "WRONGSESS", fromSession := some "sessb1",
    hasSdp := true, sdpType := some "offer" }

/-- A matching probe-ack that carries a rotated session "sessb2". -/
def c10AckPayload : Payload :=
  { ptype := "probe-ack", toPeer := some "aaaaaa", toSession := some "sessa1",
    fromSession := some "sessb2", probeId := some "p1" }

/-- An in-flight local offer, as both sides hold during a collision. -/
def c2Conn : Conn :=
  { gen := 0, sig := .haveLocalOffer, remoteDescSet := false, applied := [] }

/-- Side A ("aaaaaa", the initiator/impolite side) with its own offer to
"bbbbbb" in flight. -/
def c2StateA : MainState :=
  { mainBase with
    peerConnections := updF mainBase.peerConnections "bbbbbb"
      (some (.pc c2Conn)),
    nextGen := 1 }

/-- Side B ("bbbbbb", the polite side) with its own offer to "aaaaaa" in
flight. -/
def c2StateB : MainState :=
  { mainBase with
    myPeerId := "bbbbbb", mySessionNonce := "sessb1",
    peerConnections := updF mainBase.peerConnections "aaaaaa"
      (some (.pc c2Conn)),
    nextGen := 1 }

/-- An incoming offer payload, as seen by the signal-offer handler. -/
def c2Offer : Payload :=
  { ptype := "signal-offer", hasSdp := true, sdpType := some "offer" }

/-- An incoming answer payload, as seen by the signal-answer handler. -/
def c2Answer : Payload :=
  { ptype := "signal-answer", hasSdp := true, sdpType := some "answer" }

/-- The responding side "bbbbbb" with no connection for "aaaaaa" yet and
"aaaaaa" not ready. -/
def c5StateB : MainState :=
  { mainBase with myPeerId := "bbbbbb", mySessionNonce := "sessb1" }

/-! ## Lemmas and theorems -/

/-- C1: for distinct nonempty PeerIds A < B, A initiates toward B, B does
not initiate toward A, and politeness is exactly the negated initiator
role, so each side carries exactly one of the two roles. -/
theorem c1_role_assignment (A B : String) (hA : A ≠ "") (hB : B ≠ "")
    (hlt : A < B) :
    shouldInitiateWith A B = true ∧ shouldInitiateWith B A = false ∧
    isPoliteFor A B = false ∧ isPoliteFor B A = true ∧
    (shouldInitiateWith A B ≠ shouldInitiateWith B A) := by
  have hlt2 : A.data < B.data := String.lt_iff_toList_lt.mp hlt
  have hnot2 : ¬ B.data < A.data := fun hc =>
    absurd (String.lt_iff_toList_lt.mpr hc) (lt_asymm hlt)
  refine ⟨?_, ?_, ?_, ?_, ?_⟩
  · simp [shouldInitiateWith, hA, hlt2]
  · simp [shouldInitiateWith, hB, hnot2]
  · simp [isPoliteFor, shouldInitiateWith, hA, hlt2]
  · simp [isPoliteFor, shouldInitiateWith, hB, hnot2]
  · simp [shouldInitiateWith, hA, hB, hlt2, hnot2]

/-- Witness for C1 at the spec scenario pair "a1", "z9". -/
theorem c1_role_assignment_witness :
    shouldInitiateWith "a1" "z9" = true ∧
    shouldInitiateWith "z9" "a1" = false ∧
    isPoliteFor "a1" "z9" = false ∧
    isPoliteFor "z9" "a1" = true ∧
    (shouldInitiateWith "a1" "z9" ≠ shouldInitiateWith "z9" "a1") :=
  c1_role_assignment "a1" "z9" (by decide) (by decide)
    (by rw [String.lt_iff_toList_lt]; decide)

/-- Sorting a nonempty list of strings lexicographically puts a least
element of the list first. -/
lemma mergeSort_head_min (l : List String) (hne : l ≠ []) :
    ∃ m t, l.mergeSort strLeB = m :: t ∧
      m ∈ l ∧ ∀ x ∈ l, m ≤ x := by
  have hperm := List.mergeSort_perm l strLeB
  have hsorted : (l.mergeSort strLeB).Pairwise (fun a b => strLeB a b = true) := by
    apply List.sorted_mergeSort
    · intro a b c hab hbc
      exact decide_eq_true
        (le_trans (of_decide_eq_true hab) (of_decide_eq_true hbc))
    · intro a b
      rcases le_total a b with h | h
      · rw [show strLeB a b = true from decide_eq_true h]
        exact Bool.true_or _
      · rw [show strLeB b a = true from decide_eq_true h]
        exact Bool.or_true _
  rcases hs : l.mergeSort strLeB with _ | ⟨m, t⟩
  · exact absurd (List.perm_nil.mp (hs ▸ hperm).symm) hne
  · refine ⟨m, t, rfl, ?_, ?_⟩
    · exact hperm.subset (hs ▸ List.mem_cons_self m t)
    · intro x hx
      have hxs : x ∈ l.mergeSort strLeB := hperm.symm.subset hx
      rw [hs] at hxs hsorted
      rcases List.mem_cons.mp hxs with hxm | hxt
      · exact hxm ▸ le_refl m
      · exact of_decide_eq_true ((List.pairwise_cons.mp hsorted).1 x hxt)

/-- Election reads only knownPeers when computing the alive set. -/
lemma electionCandidates_update (s : CoordState) (now : Nat)
    (c : Option String) (b1 b2 : Bool) :
    electionCandidates
      { s with coordinatorId := c, isCoordinator := b1, heartbeatOn := b2 }
      now = electionCandidates s now := rfl

/-- C9: a forced election selects the lexicographically smallest alive
peer id; an empty alive set clears the coordinator; and a repeated forced
election over the unchanged state is a fixed point (idempotence). -/
theorem c9_forced_election_idempotent_min (s : CoordState) (now : Nat) :
    (electionCandidates s now = [] →
      (triggerCoordinatorElection s true now).coordinatorId = none) ∧
    (electionCandidates s now ≠ [] →
      ∃ m, (triggerCoordinatorElection s true now).coordinatorId = some m ∧
        m ∈ electionCandidates s now ∧
        ∀ x ∈ electionCandidates s now, m ≤ x) ∧
    triggerCoordinatorElection (triggerCoordinatorElection s true now) true now =
      triggerCoordinatorElection s true now := by
  by_cases hne : electionCandidates s now = []
  · have hsnil : (electionCandidates s now).mergeSort strLeB = [] := by
      rw [hne, List.mergeSort_nil]
    have h1 : triggerCoordinatorElection s true now =
        { s with coordinatorId := none, isCoordinator := false,
                 heartbeatOn := false } := by
      unfold triggerCoordinatorElection
      rw [hsnil]
    refine ⟨fun _ => by rw [h1], fun h => absurd hne h, ?_⟩
    rw [h1]
    have h2 : electionCandidates
        { s with coordinatorId := none, isCoordinator := false,
                 heartbeatOn := false } now = [] := hne
    unfold triggerCoordinatorElection
    rw [h2, List.mergeSort_nil]
  · obtain ⟨m, t, hs, hmem, hmin⟩ := mergeSort_head_min _ hne
    have h1 : triggerCoordinatorElection s true now =
        { s with coordinatorId := some m,
                 isCoordinator := decide (m = s.myPeerId),
                 heartbeatOn := decide (m = s.myPeerId) } := by
      unfold triggerCoordinatorElection
      rw [hs]
      simp
    refine ⟨fun h => absurd h hne, fun _ => ⟨m, by rw [h1], hmem, hmin⟩, ?_⟩
    rw [h1]
    have h2 : electionCandidates
        { s with coordinatorId := some m,
                 isCoordinator := decide (m = s.myPeerId),
                 heartbeatOn := decide (m = s.myPeerId) } now =
        electionCandidates s now := rfl
    unfold triggerCoordinatorElection
    rw [h2, hs]
    simp

/-- Witness for C9: the nonempty case at c9State (alive set
contains "bbb" and "aaa", minimum "aaa"), the empty case at c9EmptyState,
and the idempotence equation at c9State. -/
theorem c9_forced_election_witness :
    (∃ m, (triggerCoordinatorElection c9State true 1000).coordinatorId = some m ∧
      m ∈ electionCandidates c9State 1000 ∧
      ∀ x ∈ electionCandidates c9State 1000, m ≤ x) ∧
    (triggerCoordinatorElection c9EmptyState true 100000).coordinatorId = none ∧
    triggerCoordinatorElection (triggerCoordinatorElection c9State true 1000)
        true 1000 =
      triggerCoordinatorElection c9State true 1000 :=
  ⟨(c9_forced_election_idempotent_min c9State 1000).2.1 (by decide),
   (c9_forced_election_idempotent_min c9EmptyState 100000).1 (by decide),
   (c9_forced_election_idempotent_min c9State 1000).2.2⟩

/-- setPreferredSource never removes or overwrites an existing
preference: any key already mapped keeps its value. -/
lemma setPreferredSource_preserves (s : ArbState) (p : String)
    (srcO : Option String) (key src : String)
    (h : s.peerPreferredSource key = some src) :
    (setPreferredSource s p srcO).peerPreferredSource key = some src := by
  unfold setPreferredSource
  cases srcO with
  | none => exact h
  | some srcN =>
    by_cases he : srcN = ""
    · simp [he, h]
    · by_cases hs : (s.peerPreferredSource (jsTrim p)).isSome
      · simp [he, hs, h]
      · have hk : key ≠ jsTrim p := by
          intro hkey
          rw [← hkey, h] at hs
          exact hs rfl
        simp only [he, hs, if_neg, if_false, Bool.false_eq_true]
        split
        · split <;> simp [updF, hk, h]
        · split <;> simp [updF, hk, h]

/-- setPreferredSource is the identity when a preference is already
stored for the trimmed peer id. -/
lemma setPreferredSource_noop (s : ArbState) (p : String) (srcN : String)
    (h : (s.peerPreferredSource (jsTrim p)).isSome) :
    setPreferredSource s p (some srcN) = s := by
  unfold setPreferredSource
  by_cases he : srcN = ""
  · simp [he]
  · simp [he, h]

/-- recordSource does not touch the preference map. -/
lemma recordSource_pref (s : ArbState) (p c : String) :
    (recordSource s p c).peerPreferredSource = s.peerPreferredSource := by
  unfold recordSource
  split <;> rfl

/-- C7: the stored preferredTransport of a peer survives every
arbitration event (later activations never change it, disconnects and
closes never clear it); a data channel that opens for a transport other
than the stored winner is torn down (channel deleted, connection closed);
a tracker peer that connects while another transport is the stored winner
is destroyed. -/
theorem c7_preferred_transport_write_once (s : ArbState) (e : ArbEvent)
    (key src : String) (hsrc : src ≠ "")
    (hpref : s.peerPreferredSource key = some src) :
    (arbStep s e).peerPreferredSource key = some src ∧
    (∀ p hint now, e = ArbEvent.dcOpen p hint now → key = jsTrim p →
      src ≠ dcChosen s p hint →
      (arbStep s e).dataChannels p = false ∧
      ∀ c, (arbStep s e).peerConnections p = some c → c.closed = true) ∧
    (∀ p now, e = ArbEvent.trackerConnect p now → key = jsTrim p →
      src ≠ "Tracker" → (arbStep s e).trackerPeers p = false) := by
  refine ⟨?_, ?_, ?_⟩
  · cases e with
    | dcOpen p hint now =>
      show (dcOpenStep s p hint now).peerPreferredSource key = some src
      unfold dcOpenStep
      dsimp only
      split
      · exact hpref
      · exact setPreferredSource_preserves _ p _ key src
          (by rw [recordSource_pref]; exact hpref)
    | dcClose p => exact hpref
    | trackerConnect p now =>
      show (trackerConnectStep s p now).peerPreferredSource key = some src
      unfold trackerConnectStep
      dsimp only
      split
      · exact setPreferredSource_preserves _ p _ key src
          (by rw [recordSource_pref]; exact hpref)
      · exact setPreferredSource_preserves _ p _ key src
          (by rw [recordSource_pref]; exact hpref)
    | trackerClose p => exact hpref
  · rintro p hint now rfl hkey hne
    subst hkey
    have hcond : (optStrTruthy (s.peerPreferredSource (jsTrim p)) &&
        decide (s.peerPreferredSource (jsTrim p) ≠
          some (dcChosen { s with
            rtcConnectedAt := updF s.rtcConnectedAt p (some now) } p hint))) =
        true := by
      rw [hpref]
      have : dcChosen { s with
          rtcConnectedAt := updF s.rtcConnectedAt p (some now) } p hint =
          dcChosen s p hint := rfl
      rw [this]
      simp [optStrTruthy, hsrc, hne]
    have hstep : arbStep s (ArbEvent.dcOpen p hint now) =
        { s with rtcConnectedAt := updF s.rtcConnectedAt p (some now),
                 peerConnections := closeRtc s.peerConnections p,
                 dataChannels := updF s.dataChannels p false } := by
      show dcOpenStep s p hint now = _
      unfold dcOpenStep
      dsimp only
      rw [if_pos hcond]
    rw [hstep]
    refine ⟨by simp [updF], ?_⟩
    intro c
    show closeRtc s.peerConnections p p = some c → c.closed = true
    unfold closeRtc
    cases hpc : s.peerConnections p with
    | some c0 =>
      simp only [hpc, updF, if_pos, Option.some.injEq]
      intro hc
      rw [← hc]
    | none =>
      simp only [hpc]
      intro hc
      cases hc
  · rintro p now rfl hkey hne
    subst hkey
    have hpres : ((recordSource { s with
        trackerConnectedAt := updF s.trackerConnectedAt p (some now) } p
        "Tracker").peerPreferredSource (jsTrim p)).isSome := by
      rw [recordSource_pref]
      show (s.peerPreferredSource (jsTrim p)).isSome = true
      rw [hpref]
      rfl
    have hpref2 : ((recordSource { s with
        trackerConnectedAt := updF s.trackerConnectedAt p (some now) } p
        "Tracker").peerPreferredSource (jsTrim p)) = some src := by
      rw [recordSource_pref]; exact hpref
    have hcond : (optStrTruthy ((recordSource { s with
        trackerConnectedAt := updF s.trackerConnectedAt p (some now) } p
        "Tracker").peerPreferredSource (jsTrim p)) &&
        decide ((recordSource { s with
          trackerConnectedAt := updF s.trackerConnectedAt p (some now) } p
          "Tracker").peerPreferredSource (jsTrim p) ≠ some "Tracker")) = true := by
      rw [hpref2]
      simp [optStrTruthy, hsrc, hne]
    show (trackerConnectStep s p now).trackerPeers p = false
    unfold trackerConnectStep
    dsimp only
    rw [setPreferredSource_noop _ _ _ hpres]
    rw [if_pos hcond]
    simp [updF]

/-- Witness for C7: with Nostr stored as winner for "peerx", a Tracker
data channel opening is torn down and the preference survives; a tracker
connect is destroyed; both applied to concrete states. -/
theorem c7_preferred_transport_write_once_witness :
    (arbStep c7State
      (ArbEvent.dcOpen "peerx" (some "Tracker") 5)).peerPreferredSource
      "peerx" = some "Nostr" ∧
    (arbStep c7State
      (ArbEvent.dcOpen "peerx" (some "Tracker") 5)).dataChannels "peerx" =
      false ∧
    ((arbStep c7State
      (ArbEvent.dcOpen "peerx" (some "Tracker") 5)).peerConnections "peerx" =
      some ⟨0, true⟩ → RtcConn.closed ⟨0, true⟩ = true) ∧
    (arbStep c7State (ArbEvent.trackerConnect "peerx" 7)).trackerPeers
      "peerx" = false :=
  ⟨(c7_preferred_transport_write_once c7State
      (ArbEvent.dcOpen "peerx" (some "Tracker") 5) "peerx" "Nostr"
      (by decide) (by decide)).1,
   ((c7_preferred_transport_write_once c7State
      (ArbEvent.dcOpen "peerx" (some "Tracker") 5) "peerx" "Nostr"
      (by decide) (by decide)).2.1 "peerx" (some "Tracker") 5 rfl
      (by decide) (by decide)).1,
   ((c7_preferred_transport_write_once c7State
      (ArbEvent.dcOpen "peerx" (some "Tracker") 5) "peerx" "Nostr"
      (by decide) (by decide)).2.1 "peerx" (some "Tracker") 5 rfl
      (by decide) (by decide)).2 ⟨0, true⟩,
   (c7_preferred_transport_write_once c7State
      (ArbEvent.trackerConnect "peerx" 7) "peerx" "Nostr"
      (by decide) (by decide)).2.2 "peerx" 7 rfl (by decide) (by decide)⟩

/-- Running the batcher over a concatenation of event lists composes. -/
lemma iceRun_append (e : IceBatchEntry) (l1 l2 : List IceEvent) :
    iceRun e (l1 ++ l2) =
      ((iceRun (iceRun e l1).1 l2).1,
        (iceRun e l1).2 ++ (iceRun (iceRun e l1).1 l2).2) := by
  induction l1 generalizing e with
  | nil => simp [iceRun]
  | cons ev evs ih =>
    simp [iceRun, ih, List.append_assoc]

/-- Candidates arriving while a timer is already pending are appended to
the pending list without touching the timer and without sending. -/
lemma iceRun_cands_armed (pairs : List (Nat × Nat)) (acc : List Nat) (d : Nat) :
    iceRun ⟨acc, some d⟩ (candEvents pairs) =
      (⟨acc ++ pairs.map Prod.fst, some d⟩, []) := by
  induction pairs generalizing acc with
  | nil => simp [candEvents, iceRun]
  | cons p ps ih =>
    simp only [candEvents, List.map_cons, iceRun, iceStep]
    have h := ih (acc ++ [p.1])
    unfold candEvents at h
    rw [h]
    simp [List.append_assoc]

/-- C8 (amended): each candidate is appended to the pending list; a
~250ms timer is armed when a candidate arrives and no timer is already
pending (the code does not re-arm it on later candidates, so the pending
deadline stays 250ms after the first unflushed candidate); the timer
callback flushes the whole pending list as one batch; end-of-candidates
flushes immediately; hence N candidates arriving before the timer fires,
followed by end-of-candidates, produce exactly one batch message
containing all N candidates in order. -/
theorem c8_batch_single_flush (c0 t0 : Nat) (rest : List (Nat × Nat))
    (tEnd : Nat) :
    iceRun ⟨[], none⟩
        (candEvents ((c0, t0) :: rest) ++ [IceEvent.endOfCand tEnd]) =
      (⟨[], none⟩, [c0 :: rest.map Prod.fst]) ∧
    (iceRun ⟨[], none⟩ (candEvents ((c0, t0) :: rest))).1.timer =
      some (t0 + 250) ∧
    (∀ e : IceBatchEntry, e.candidates ≠ [] →
      iceStep e IceEvent.timerFire = (⟨[], none⟩, [e.candidates])) := by
  have hfirst : iceRun ⟨[], none⟩ (candEvents ((c0, t0) :: rest)) =
      (⟨c0 :: rest.map Prod.fst, some (t0 + 250)⟩, []) := by
    simp only [candEvents, List.map_cons, iceRun, iceStep, List.nil_append]
    have h := iceRun_cands_armed rest [c0] (t0 + 250)
    unfold candEvents at h
    rw [h]
    rfl
  refine ⟨?_, ?_, ?_⟩
  · rw [iceRun_append, hfirst]
    simp only [iceRun, iceStep, iceFlush]
    rfl
  · rw [hfirst]
  · intro e he
    show iceFlush e = _
    unfold iceFlush
    rw [if_neg (by simpa [List.isEmpty_iff] using he)]

/-- Counterexample to C8 as frozen: the claim says the ~250ms debounce
timer is re-armed on each new candidate, but after candidates at t=0 and
t=100 the pending deadline is still 250 (armed by the first candidate),
not 350 as re-arming at the second candidate would give: the code arms a
timer only when none is pending. -/
theorem c8_counterexample :
    (iceRun ⟨[], none⟩ [IceEvent.cand 1 0, IceEvent.cand 2 100]).1.timer =
      some (0 + 250) ∧
    (iceRun ⟨[], none⟩ [IceEvent.cand 1 0, IceEvent.cand 2 100]).1.timer ≠
      some (100 + 250) := by
  decide

/-- Witness for C8: the spec scenario of three candidates inside 100ms
followed by end-of-candidates yields exactly one batch with all three,
and a timer fire on a concrete nonempty entry flushes it whole. -/
theorem c8_batch_single_flush_witness :
    iceRun ⟨[], none⟩
        (candEvents [(1, 0), (2, 50), (3, 100)] ++ [IceEvent.endOfCand 120]) =
      (⟨[], none⟩, [[1, 2, 3]]) ∧
    (iceRun ⟨[], none⟩ (candEvents [(1, 0), (2, 50), (3, 100)])).1.timer =
      some (0 + 250) ∧
    iceStep ⟨[5], some 999⟩ IceEvent.timerFire = (⟨[], none⟩, [[5]]) :=
  ⟨(c8_batch_single_flush 1 0 [(2, 50), (3, 100)] 120).1,
   (c8_batch_single_flush 1 0 [(2, 50), (3, 100)] 120).2.1,
   (c8_batch_single_flush 1 0 [(2, 50), (3, 100)] 120).2.2 ⟨[5], some 999⟩
     (by decide)⟩

/-- A caught send either leaves the state alone or only appends one
message to the sent log. -/
lemma sendSignal_getD_shape (s : MainState) (t : Option String) (pt : String)
    (pid : Option String) (sd : Option String) (cd : Option (List Nat)) :
    (sendSignal s t pt pid sd cd).getD s = s ∨
    ∃ m, (sendSignal s t pt pid sd cd).getD s =
      { s with sent := s.sent ++ [m] } := by
  unfold sendSignal
  repeat' first
    | split
    | dsimp only
  all_goals first
    | exact Or.inl rfl
    | exact Or.inr ⟨_, rfl⟩

/-- Same shape for sendSignalToSession. -/
lemma sendSignalToSession_getD_shape (s : MainState) (t pt : String)
    (pid : Option String) (ts : Option String) :
    (sendSignalToSession s t pt pid ts).getD s = s ∨
    ∃ m, (sendSignalToSession s t pt pid ts).getD s =
      { s with sent := s.sent ++ [m] } := by
  unfold sendSignalToSession
  repeat' first
    | split
    | dsimp only
  all_goals first
    | exact Or.inl rfl
    | exact Or.inr ⟨_, rfl⟩

/-- Seen-peer registration touches only peerConnections and peerSources. -/
lemma registerSeen_proj (s : MainState) (q : String) :
    (registerSeen s q).peerSessions = s.peerSessions ∧
    (registerSeen s q).readyPeers = s.readyPeers ∧
    (registerSeen s q).peerProbeState = s.peerProbeState ∧
    (registerSeen s q).peerResyncState = s.peerResyncState ∧
    (registerSeen s q).pendingIce = s.pendingIce ∧
    (registerSeen s q).dataChannelsN = s.dataChannelsN ∧
    (registerSeen s q).closedGens = s.closedGens ∧
    (registerSeen s q).sent = s.sent ∧
    (registerSeen s q).myPeerId = s.myPeerId ∧
    (registerSeen s q).mySessionNonce = s.mySessionNonce ∧
    (registerSeen s q).nostrUp = s.nostrUp ∧
    (registerSeen s q).nextGen = s.nextGen ∧
    (registerSeen s q).probeSeq = s.probeSeq := by
  unfold registerSeen
  split <;>
    exact ⟨rfl, rfl, rfl, rfl, rfl, rfl, rfl, rfl, rfl, rfl, rfl, rfl, rfl⟩

/-- Seen-peer registration never creates or changes a real connection. -/
lemma registerSeen_conns (s : MainState) (q : String) :
    ∀ y c, (registerSeen s q).peerConnections y = some (.pc c) ↔
      s.peerConnections y = some (.pc c) := by
  intro y c
  unfold registerSeen
  split
  · exact Iff.rfl
  · rename_i hnone
    by_cases hy : y = q
    · subst hy
      constructor
      · intro h
        simp only [updF, if_pos rfl] at h
        cases h
      · intro h
        rw [hnone] at h
        cases h
    · constructor
      · intro h
        simpa only [updF, if_neg hy] using h
      · intro h
        simpa only [updF, if_neg hy] using h

/-- Session learning touches only peerSessions and readyPeers. -/
lemma learnPeerSession_preserves (s : MainState) (q : String)
    (fsOpt : Option String) :
    (learnPeerSession s q fsOpt).peerProbeState = s.peerProbeState ∧
    (learnPeerSession s q fsOpt).peerResyncState = s.peerResyncState ∧
    (learnPeerSession s q fsOpt).peerConnections = s.peerConnections ∧
    (learnPeerSession s q fsOpt).pendingIce = s.pendingIce ∧
    (learnPeerSession s q fsOpt).dataChannelsN = s.dataChannelsN ∧
    (learnPeerSession s q fsOpt).closedGens = s.closedGens ∧
    (learnPeerSession s q fsOpt).sent = s.sent ∧
    (learnPeerSession s q fsOpt).myPeerId = s.myPeerId ∧
    (learnPeerSession s q fsOpt).mySessionNonce = s.mySessionNonce ∧
    (learnPeerSession s q fsOpt).nostrUp = s.nostrUp := by
  unfold learnPeerSession
  repeat' first
    | split
    | dsimp only
  all_goals exact ⟨rfl, rfl, rfl, rfl, rfl, rfl, rfl, rfl, rfl, rfl⟩

/-- Session learning leaves other peers alone. -/
lemma learnPeerSession_others (s : MainState) (q : String)
    (fsOpt : Option String) (x : String) (hx : x ≠ q) :
    (learnPeerSession s q fsOpt).peerSessions x = s.peerSessions x ∧
    (learnPeerSession s q fsOpt).readyPeers x = s.readyPeers x := by
  unfold learnPeerSession
  repeat' first
    | split
    | dsimp only
  all_goals simp [updF, hx]

/-- At the learned peer, session learning either changes nothing or
stores the (length >= 6) fromSession and clears readiness. -/
lemma learnPeerSession_at (s : MainState) (q : String) (fsOpt : Option String) :
    ((learnPeerSession s q fsOpt).peerSessions q = s.peerSessions q ∧
     (learnPeerSession s q fsOpt).readyPeers q = s.readyPeers q ∧
     ∀ fs, fsOpt = some fs → fs.length < 6 ∨ s.peerSessions q = some fs) ∨
    (∃ fs, fsOpt = some fs ∧ ¬ fs.length < 6 ∧
      (learnPeerSession s q fsOpt).peerSessions q = some fs ∧
      (learnPeerSession s q fsOpt).readyPeers q = false) := by
  unfold learnPeerSession
  split
  · rename_i fs
    split
    · rename_i hlen
      refine Or.inl ⟨rfl, rfl, fun fs2 hfs2 => ?_⟩
      injection hfs2 with h
      exact Or.inl (h ▸ hlen)
    · rename_i hlen
      dsimp only
      split
      · exact Or.inr ⟨fs, rfl, hlen, by simp [updF], by simp [updF]⟩
      · rename_i hcond
        refine Or.inl ⟨rfl, rfl, fun fs2 hfs2 => ?_⟩
        injection hfs2 with h
        subst h
        simp only [Bool.or_eq_true, Bool.not_eq_true', decide_eq_true_eq] at hcond
        push_neg at hcond
        exact Or.inr hcond.2
  · exact Or.inl ⟨rfl, rfl, fun fs2 hfs2 => by cases hfs2⟩

/-- maybeProbePeer touches only probe bookkeeping and the sent log. -/
lemma maybeProbePeer_preserves (s : MainState) (q : String) (now : Nat) :
    (maybeProbePeer s q now).peerSessions = s.peerSessions ∧
    (maybeProbePeer s q now).readyPeers = s.readyPeers ∧
    (maybeProbePeer s q now).peerConnections = s.peerConnections ∧
    (maybeProbePeer s q now).pendingIce = s.pendingIce ∧
    (maybeProbePeer s q now).dataChannelsN = s.dataChannelsN ∧
    (maybeProbePeer s q now).closedGens = s.closedGens ∧
    (maybeProbePeer s q now).myPeerId = s.myPeerId ∧
    (maybeProbePeer s q now).mySessionNonce = s.mySessionNonce := by
  unfold maybeProbePeer sendSignal
  repeat' first
    | split
    | dsimp only
  all_goals exact ⟨rfl, rfl, rfl, rfl, rfl, rfl, rfl, rfl⟩

/-- resyncPeerSession touches only resync/probe bookkeeping and the sent
log: sessions, readiness and all negotiation state are untouched. -/
lemma resyncPeerSession_preserves (s : MainState) (q : String) (now : Nat) :
    (resyncPeerSession s q now).peerSessions = s.peerSessions ∧
    (resyncPeerSession s q now).readyPeers = s.readyPeers ∧
    (resyncPeerSession s q now).peerConnections = s.peerConnections ∧
    (resyncPeerSession s q now).pendingIce = s.pendingIce ∧
    (resyncPeerSession s q now).dataChannelsN = s.dataChannelsN ∧
    (resyncPeerSession s q now).closedGens = s.closedGens ∧
    (resyncPeerSession s q now).myPeerId = s.myPeerId ∧
    (resyncPeerSession s q now).mySessionNonce = s.mySessionNonce := by
  unfold resyncPeerSession sendSignal
  repeat' first
    | split
    | dsimp only
  all_goals exact ⟨rfl, rfl, rfl, rfl, rfl, rfl, rfl, rfl⟩

/-- createPeerConnection never touches sessions, readiness, probe or
resync bookkeeping, or the closed log. -/
lemma createPeerConnection_preserves (s : MainState) (q : String) (b : Bool) :
    (createPeerConnection s q b).1.peerSessions = s.peerSessions ∧
    (createPeerConnection s q b).1.readyPeers = s.readyPeers ∧
    (createPeerConnection s q b).1.peerProbeState = s.peerProbeState ∧
    (createPeerConnection s q b).1.peerResyncState = s.peerResyncState ∧
    (createPeerConnection s q b).1.closedGens = s.closedGens ∧
    (createPeerConnection s q b).1.myPeerId = s.myPeerId ∧
    (createPeerConnection s q b).1.mySessionNonce = s.mySessionNonce ∧
    (createPeerConnection s q b).1.nostrUp = s.nostrUp := by
  unfold createPeerConnection sendSignal
  repeat' first
    | split
    | dsimp only
  all_goals exact ⟨rfl, rfl, rfl, rfl, rfl, rfl, rfl, rfl⟩

/-- ensurePeerConnection never touches sessions, readiness, probe or
resync bookkeeping, or the closed log. -/
lemma ensurePeerConnection_preserves (s : MainState) (q : String) :
    (ensurePeerConnection s q).1.peerSessions = s.peerSessions ∧
    (ensurePeerConnection s q).1.readyPeers = s.readyPeers ∧
    (ensurePeerConnection s q).1.peerProbeState = s.peerProbeState ∧
    (ensurePeerConnection s q).1.peerResyncState = s.peerResyncState ∧
    (ensurePeerConnection s q).1.closedGens = s.closedGens ∧
    (ensurePeerConnection s q).1.myPeerId = s.myPeerId ∧
    (ensurePeerConnection s q).1.mySessionNonce = s.mySessionNonce ∧
    (ensurePeerConnection s q).1.nostrUp = s.nostrUp := by
  unfold ensurePeerConnection
  split
  · exact ⟨rfl, rfl, rfl, rfl, rfl, rfl, rfl, rfl⟩
  · split
    · exact ⟨rfl, rfl, rfl, rfl, rfl, rfl, rfl, rfl⟩
    · dsimp only
      split
      · exact ⟨rfl, rfl, rfl, rfl, rfl, rfl, rfl, rfl⟩
      · exact createPeerConnection_preserves s q _

/-- resetPeerConnection never touches sessions, readiness, probe or
resync bookkeeping. -/
lemma resetPeerConnection_preserves (s : MainState) (q : String) :
    (resetPeerConnection s q).1.peerSessions = s.peerSessions ∧
    (resetPeerConnection s q).1.readyPeers = s.readyPeers ∧
    (resetPeerConnection s q).1.peerProbeState = s.peerProbeState ∧
    (resetPeerConnection s q).1.peerResyncState = s.peerResyncState ∧
    (resetPeerConnection s q).1.myPeerId = s.myPeerId ∧
    (resetPeerConnection s q).1.mySessionNonce = s.mySessionNonce ∧
    (resetPeerConnection s q).1.nostrUp = s.nostrUp := by
  unfold resetPeerConnection
  dsimp only
  split <;>
    exact ⟨(ensurePeerConnection_preserves _ q).1,
           (ensurePeerConnection_preserves _ q).2.1,
           (ensurePeerConnection_preserves _ q).2.2.1,
           (ensurePeerConnection_preserves _ q).2.2.2.1,
           (ensurePeerConnection_preserves _ q).2.2.2.2.2.1,
           (ensurePeerConnection_preserves _ q).2.2.2.2.2.2.1,
           (ensurePeerConnection_preserves _ q).2.2.2.2.2.2.2⟩

/-- addIceCandidateSafely never touches sessions, readiness, probe or
resync bookkeeping, the closed log or the sent log. -/
lemma addIceCandidateSafely_preserves (s : MainState) (q : String) (c : Nat) :
    (addIceCandidateSafely s q c).peerSessions = s.peerSessions ∧
    (addIceCandidateSafely s q c).readyPeers = s.readyPeers ∧
    (addIceCandidateSafely s q c).peerProbeState = s.peerProbeState ∧
    (addIceCandidateSafely s q c).peerResyncState = s.peerResyncState ∧
    (addIceCandidateSafely s q c).closedGens = s.closedGens ∧
    (addIceCandidateSafely s q c).sent = s.sent ∧
    (addIceCandidateSafely s q c).myPeerId = s.myPeerId ∧
    (addIceCandidateSafely s q c).mySessionNonce = s.mySessionNonce := by
  unfold addIceCandidateSafely
  repeat' first
    | split
    | dsimp only
  all_goals exact ⟨rfl, rfl, rfl, rfl, rfl, rfl, rfl, rfl⟩

/-- flushPendingIce never touches sessions, readiness, probe or resync
bookkeeping, the closed log or the sent log. -/
lemma flushPendingIce_preserves (s : MainState) (q : String) :
    (flushPendingIce s q).peerSessions = s.peerSessions ∧
    (flushPendingIce s q).readyPeers = s.readyPeers ∧
    (flushPendingIce s q).peerProbeState = s.peerProbeState ∧
    (flushPendingIce s q).peerResyncState = s.peerResyncState ∧
    (flushPendingIce s q).closedGens = s.closedGens ∧
    (flushPendingIce s q).sent = s.sent ∧
    (flushPendingIce s q).myPeerId = s.myPeerId ∧
    (flushPendingIce s q).mySessionNonce = s.mySessionNonce := by
  unfold flushPendingIce
  repeat' first
    | split
    | dsimp only
  all_goals exact ⟨rfl, rfl, rfl, rfl, rfl, rfl, rfl, rfl⟩

lemma ensure_sessions (s : MainState) (q : String) :
    (ensurePeerConnection s q).1.peerSessions = s.peerSessions :=
  (ensurePeerConnection_preserves s q).1

lemma ensure_ready (s : MainState) (q : String) :
    (ensurePeerConnection s q).1.readyPeers = s.readyPeers :=
  (ensurePeerConnection_preserves s q).2.1

lemma ensure_probeSt (s : MainState) (q : String) :
    (ensurePeerConnection s q).1.peerProbeState = s.peerProbeState :=
  (ensurePeerConnection_preserves s q).2.2.1

lemma ensure_resyncSt (s : MainState) (q : String) :
    (ensurePeerConnection s q).1.peerResyncState = s.peerResyncState :=
  (ensurePeerConnection_preserves s q).2.2.2.1

lemma reset_sessions (s : MainState) (q : String) :
    (resetPeerConnection s q).1.peerSessions = s.peerSessions :=
  (resetPeerConnection_preserves s q).1

lemma reset_ready (s : MainState) (q : String) :
    (resetPeerConnection s q).1.readyPeers = s.readyPeers :=
  (resetPeerConnection_preserves s q).2.1

lemma reset_probeSt (s : MainState) (q : String) :
    (resetPeerConnection s q).1.peerProbeState = s.peerProbeState :=
  (resetPeerConnection_preserves s q).2.2.1

lemma reset_resyncSt (s : MainState) (q : String) :
    (resetPeerConnection s q).1.peerResyncState = s.peerResyncState :=
  (resetPeerConnection_preserves s q).2.2.2.1

lemma flush_sessions (s : MainState) (q : String) :
    (flushPendingIce s q).peerSessions = s.peerSessions :=
  (flushPendingIce_preserves s q).1

lemma flush_ready (s : MainState) (q : String) :
    (flushPendingIce s q).readyPeers = s.readyPeers :=
  (flushPendingIce_preserves s q).2.1

lemma flush_probeSt (s : MainState) (q : String) :
    (flushPendingIce s q).peerProbeState = s.peerProbeState :=
  (flushPendingIce_preserves s q).2.2.1

lemma flush_resyncSt (s : MainState) (q : String) :
    (flushPendingIce s q).peerResyncState = s.peerResyncState :=
  (flushPendingIce_preserves s q).2.2.2.1

lemma sendGetD_sessions (s : MainState) (t : Option String) (pt : String)
    (pid : Option String) (sd : Option String) (cd : Option (List Nat)) :
    ((sendSignal s t pt pid sd cd).getD s).peerSessions = s.peerSessions := by
  rcases sendSignal_getD_shape s t pt pid sd cd with h | ⟨m, h⟩ <;> rw [h]

lemma sendGetD_ready (s : MainState) (t : Option String) (pt : String)
    (pid : Option String) (sd : Option String) (cd : Option (List Nat)) :
    ((sendSignal s t pt pid sd cd).getD s).readyPeers = s.readyPeers := by
  rcases sendSignal_getD_shape s t pt pid sd cd with h | ⟨m, h⟩ <;> rw [h]

lemma sendGetD_probeSt (s : MainState) (t : Option String) (pt : String)
    (pid : Option String) (sd : Option String) (cd : Option (List Nat)) :
    ((sendSignal s t pt pid sd cd).getD s).peerProbeState = s.peerProbeState := by
  rcases sendSignal_getD_shape s t pt pid sd cd with h | ⟨m, h⟩ <;> rw [h]

lemma sendGetD_resyncSt (s : MainState) (t : Option String) (pt : String)
    (pid : Option String) (sd : Option String) (cd : Option (List Nat)) :
    ((sendSignal s t pt pid sd cd).getD s).peerResyncState =
      s.peerResyncState := by
  rcases sendSignal_getD_shape s t pt pid sd cd with h | ⟨m, h⟩ <;> rw [h]

/-- The offer handler never touches sessions, readiness, or probe and
resync bookkeeping. -/
lemma handleOffer_preserves (s : MainState) (q : String) (p : Payload) :
    (handleOffer s q p).peerSessions = s.peerSessions ∧
    (handleOffer s q p).readyPeers = s.readyPeers ∧
    (handleOffer s q p).peerProbeState = s.peerProbeState ∧
    (handleOffer s q p).peerResyncState = s.peerResyncState := by
  unfold handleOffer offerAccept applyRemoteOffer
  repeat' first
    | split
    | dsimp only
  all_goals refine ⟨?_, ?_, ?_, ?_⟩ <;>
    simp only [sendGetD_sessions, sendGetD_ready, sendGetD_probeSt,
      sendGetD_resyncSt, ensure_sessions, ensure_ready, ensure_probeSt,
      ensure_resyncSt, reset_sessions, reset_ready, reset_probeSt,
      reset_resyncSt, flush_sessions, flush_ready, flush_probeSt,
      flush_resyncSt]

/-- The answer handler never touches sessions, readiness, or probe and
resync bookkeeping. -/
lemma handleAnswer_preserves (s : MainState) (q : String) (p : Payload) :
    (handleAnswer s q p).peerSessions = s.peerSessions ∧
    (handleAnswer s q p).readyPeers = s.readyPeers ∧
    (handleAnswer s q p).peerProbeState = s.peerProbeState ∧
    (handleAnswer s q p).peerResyncState = s.peerResyncState := by
  unfold handleAnswer flushPendingIce
  repeat' first
    | split
    | dsimp only
  all_goals exact ⟨rfl, rfl, rfl, rfl⟩

/-- The single-candidate handler never touches sessions or readiness. -/
lemma handleIce_preserves (s : MainState) (q : String) (p : Payload) :
    (handleIce s q p).peerSessions = s.peerSessions ∧
    (handleIce s q p).readyPeers = s.readyPeers ∧
    (handleIce s q p).peerProbeState = s.peerProbeState ∧
    (handleIce s q p).peerResyncState = s.peerResyncState := by
  unfold handleIce
  split
  · rename_i c heq
    have h := addIceCandidateSafely_preserves s q c
    exact ⟨h.1, h.2.1, h.2.2.1, h.2.2.2.1⟩
  · exact ⟨rfl, rfl, rfl, rfl⟩

/-- A fold of candidate additions never touches sessions or readiness. -/
lemma foldl_addIce_preserves (q : String) (cs : List Nat) (s : MainState) :
    (cs.foldl (fun st c => addIceCandidateSafely st q c) s).peerSessions =
      s.peerSessions ∧
    (cs.foldl (fun st c => addIceCandidateSafely st q c) s).readyPeers =
      s.readyPeers ∧
    (cs.foldl (fun st c => addIceCandidateSafely st q c) s).peerProbeState =
      s.peerProbeState ∧
    (cs.foldl (fun st c => addIceCandidateSafely st q c) s).peerResyncState =
      s.peerResyncState := by
  induction cs generalizing s with
  | nil => exact ⟨rfl, rfl, rfl, rfl⟩
  | cons c cs ih =>
    simp only [List.foldl_cons]
    have h1 := addIceCandidateSafely_preserves s q c
    have h2 := ih (addIceCandidateSafely s q c)
    exact ⟨h2.1.trans h1.1, h2.2.1.trans h1.2.1,
      h2.2.2.1.trans h1.2.2.1, h2.2.2.2.trans h1.2.2.2.1⟩

/-- The candidate-batch handler never touches sessions or readiness. -/
lemma handleIceBatch_preserves (s : MainState) (q : String) (p : Payload) :
    (handleIceBatch s q p).peerSessions = s.peerSessions ∧
    (handleIceBatch s q p).readyPeers = s.readyPeers ∧
    (handleIceBatch s q p).peerProbeState = s.peerProbeState ∧
    (handleIceBatch s q p).peerResyncState = s.peerResyncState := by
  unfold handleIceBatch
  split
  · rename_i cs heq
    exact foldl_addIce_preserves q cs s
  · exact ⟨rfl, rfl, rfl, rfl⟩

/-- A probe send never needs a stored peer session: with the client up it
always succeeds and appends exactly the probe message. -/
lemma sendSignal_probe (s : MainState) (q : String) (pid : Option String)
    (hup : s.nostrUp = true) :
    sendSignal s (some q) "probe" pid none none =
      some { s with sent := s.sent ++
        [{ toPeer := some q, ptype := "probe", toSession := none,
           fromSession := s.mySessionNonce, probeId := pid, sdpType := none,
           candidates := none }] } := by
  unfold sendSignal
  rw [hup]
  simp

/-- resyncPeerSession with the client up: inside the 3000ms window it is a
no-op; outside it, it stamps the throttle clock and sends one probe. -/
lemma resyncPeerSession_spec (s : MainState) (q : String) (now : Nat)
    (hup : s.nostrUp = true) :
    (now - (s.peerResyncState q).getD 0 < 3000 →
      resyncPeerSession s q now = s) ∧
    (¬ now - (s.peerResyncState q).getD 0 < 3000 →
      (resyncPeerSession s q now).peerResyncState q = some now ∧
      ∃ m, (resyncPeerSession s q now).sent = s.sent ++ [m] ∧
        m.ptype = "probe" ∧ m.toPeer = some q ∧ m.toSession = none) := by
  constructor
  · intro hthr
    unfold resyncPeerSession
    rw [hup]
    simp only [Bool.not_true, Bool.false_eq_true, if_false]
    rw [if_pos hthr]
  · intro hthr
    unfold resyncPeerSession
    rw [hup]
    simp only [Bool.not_true, Bool.false_eq_true, if_false]
    rw [if_neg hthr]
    rw [sendSignal_probe _ _ _ rfl]
    refine ⟨by simp [updF], ?_⟩
    exact ⟨_, rfl, rfl, rfl, rfl⟩

/-- C6 (amended): an inbound addressed message other than hello and probe
(which the handler dispatches before the session check) whose toSession is
present (nonempty) and differs from the local session token is dropped:
sessions, readiness, candidate queues, data channels, the closed log and
every real connection are untouched, and a resynchronization probe is
sent to the sender, throttled to at most one per 3000ms per peer.  The
handler is a total function, so the condition is never surfaced as an
error. -/
theorem c6_to_session_mismatch_drop_and_resync (s : MainState) (q : String)
    (p : Payload) (now : Nat) (hq : q ≠ "") (hqm : q ≠ s.myPeerId)
    (hhello : p.ptype ≠ "hello") (hprobe : p.ptype ≠ "probe")
    (hmm : (optStrTruthy p.toSession &&
      decide (p.toSession ≠ some s.mySessionNonce)) = true)
    (hup : s.nostrUp = true) :
    (onPayload s q p now).readyPeers = s.readyPeers ∧
    (onPayload s q p now).peerSessions = s.peerSessions ∧
    (onPayload s q p now).pendingIce = s.pendingIce ∧
    (onPayload s q p now).dataChannelsN = s.dataChannelsN ∧
    (onPayload s q p now).closedGens = s.closedGens ∧
    (∀ y c, (onPayload s q p now).peerConnections y = some (.pc c) ↔
      s.peerConnections y = some (.pc c)) ∧
    (now - (s.peerResyncState q).getD 0 < 3000 →
      (onPayload s q p now).sent = s.sent ∧
      (onPayload s q p now).peerResyncState = s.peerResyncState) ∧
    (¬ now - (s.peerResyncState q).getD 0 < 3000 →
      (onPayload s q p now).peerResyncState q = some now ∧
      ∃ m, (onPayload s q p now).sent = s.sent ++ [m] ∧
        m.ptype = "probe" ∧ m.toPeer = some q) := by
  obtain ⟨rs1, rs2, rs3, rs4, rs5, rs6, rs7, rs8, rs9, rs10, rs11, rs12, rs13⟩ :=
    registerSeen_proj s q
  have hon : onPayload s q p now = resyncPeerSession (registerSeen s q) q now := by
    unfold onPayload
    rw [if_neg (by
      push_neg
      exact ⟨hq, hqm⟩)]
    dsimp only
    rw [if_neg hhello, if_neg hprobe, rs10, if_pos hmm]
  obtain ⟨rp1, rp2, rp3, rp4, rp5, rp6, rp7, rp8⟩ :=
    resyncPeerSession_preserves (registerSeen s q) q now
  have hgetD : ((registerSeen s q).peerResyncState q).getD 0 =
      (s.peerResyncState q).getD 0 := by rw [rs4]
  have hspec := resyncPeerSession_spec (registerSeen s q) q now (by rw [rs11, hup])
  refine ⟨?_, ?_, ?_, ?_, ?_, ?_, ?_, ?_⟩
  · rw [hon, rp2, rs2]
  · rw [hon, rp1, rs1]
  · rw [hon, rp4, rs5]
  · rw [hon, rp5, rs6]
  · rw [hon, rp6, rs7]
  · intro y c
    rw [hon, rp3]
    exact registerSeen_conns s q y c
  · intro hthr
    have h1 := hspec.1 (by rw [hgetD]; exact hthr)
    rw [hon, h1]
    exact ⟨rs8, rs4⟩
  · intro hthr
    have h2 := hspec.2 (by rw [hgetD]; exact hthr)
    rw [hon]
    obtain ⟨hstamp, m, hsent, hty, hto, hts⟩ := h2
    exact ⟨hstamp, m, by rw [hsent, rs8], hty, hto⟩

/-- Counterexample to C6 as frozen: an addressed probe whose toSession
does not match the local session token is not dropped: the handler still
learns the sender's session, replies with a probe-ack, and records no
resync, because probes are dispatched before the toSession check. -/
theorem c6_counterexample :
    optStrTruthy c6ProbeWrongSession.toSession = true ∧
    c6ProbeWrongSession.toSession ≠ some mainBase.mySessionNonce ∧
    c6ProbeWrongSession.toPeer = some mainBase.myPeerId ∧
    (onPayload mainBase "bbbbbb" c6ProbeWrongSession 0).peerSessions
      "bbbbbb" = some "sessb1" ∧
    ((onPayload mainBase "bbbbbb" c6ProbeWrongSession 0).sent.map
      (fun m => m.ptype)) = ["probe-ack"] ∧
    (onPayload mainBase "bbbbbb" c6ProbeWrongSession 0).peerResyncState
      "bbbbbb" = none := by
  decide

/-- Witness for C6 at a concrete offer with a wrong toSession: the unthrottled
case at time 5000 sends one resync probe, and the throttled case at time
1000 sends nothing; negotiation state is untouched. -/
theorem c6_to_session_mismatch_witness :
    (onPayload mainBase "bbbbbb" c6OfferWrongSession 5000).peerSessions =
      mainBase.peerSessions ∧
    ((onPayload mainBase "bbbbbb" c6OfferWrongSession 5000).peerConnections
        "bbbbbb" = some (.pc ⟨0, .stable, false, []⟩) ↔
      mainBase.peerConnections "bbbbbb" = some (.pc ⟨0, .stable, false, []⟩)) ∧
    (onPayload mainBase "bbbbbb" c6OfferWrongSession 5000).peerResyncState
      "bbbbbb" = some 5000 ∧
    (∃ m, (onPayload mainBase "bbbbbb" c6OfferWrongSession 5000).sent =
      mainBase.sent ++ [m] ∧ m.ptype = "probe" ∧ m.toPeer = some "bbbbbb") ∧
    (onPayload mainBase "bbbbbb" c6OfferWrongSession 1000).sent =
      mainBase.sent :=
  ⟨(c6_to_session_mismatch_drop_and_resync mainBase "bbbbbb"
      c6OfferWrongSession 5000 (by decide) (by decide) (by decide) (by decide)
      (by decide) (by decide)).2.1,
   (c6_to_session_mismatch_drop_and_resync mainBase "bbbbbb"
      c6OfferWrongSession 5000 (by decide) (by decide) (by decide) (by decide)
      (by decide) (by decide)).2.2.2.2.2.1 "bbbbbb" ⟨0, .stable, false, []⟩,
   ((c6_to_session_mismatch_drop_and_resync mainBase "bbbbbb"
      c6OfferWrongSession 5000 (by decide) (by decide) (by decide) (by decide)
      (by decide) (by decide)).2.2.2.2.2.2.2 (by decide)).1,
   ((c6_to_session_mismatch_drop_and_resync mainBase "bbbbbb"
      c6OfferWrongSession 5000 (by decide) (by decide) (by decide) (by decide)
      (by decide) (by decide)).2.2.2.2.2.2.2 (by decide)).2,
   ((c6_to_session_mismatch_drop_and_resync mainBase "bbbbbb"
      c6OfferWrongSession 1000 (by decide) (by decide) (by decide) (by decide)
      (by decide) (by decide)).2.2.2.2.2.2.1 (by decide)).1⟩

/-- The probe-ack session refresh touches only peerSessions and the
stored probe record. -/
lemma probeAckSessionUpdate_preserves (s : MainState) (q : String)
    (last : ProbeRec) (fsOpt : Option String) :
    (probeAckSessionUpdate s q last fsOpt).readyPeers = s.readyPeers ∧
    (probeAckSessionUpdate s q last fsOpt).peerResyncState = s.peerResyncState ∧
    (probeAckSessionUpdate s q last fsOpt).peerConnections = s.peerConnections ∧
    (probeAckSessionUpdate s q last fsOpt).pendingIce = s.pendingIce ∧
    (probeAckSessionUpdate s q last fsOpt).sent = s.sent ∧
    (probeAckSessionUpdate s q last fsOpt).myPeerId = s.myPeerId ∧
    (probeAckSessionUpdate s q last fsOpt).mySessionNonce = s.mySessionNonce ∧
    (probeAckSessionUpdate s q last fsOpt).closedGens = s.closedGens ∧
    (probeAckSessionUpdate s q last fsOpt).dataChannelsN = s.dataChannelsN ∧
    (probeAckSessionUpdate s q last fsOpt).nostrUp = s.nostrUp := by
  unfold probeAckSessionUpdate
  repeat' first
    | split
    | dsimp only
  all_goals exact ⟨rfl, rfl, rfl, rfl, rfl, rfl, rfl, rfl, rfl, rfl⟩

/-- The probe-ack session refresh changes no other peer's session, and at
the acked peer it either keeps the stored session or stores the carried
fromSession. -/
lemma probeAckSessionUpdate_sessions (s : MainState) (q : String)
    (last : ProbeRec) (fsOpt : Option String) :
    (∀ x, x ≠ q → (probeAckSessionUpdate s q last fsOpt).peerSessions x =
      s.peerSessions x) ∧
    ((probeAckSessionUpdate s q last fsOpt).peerSessions q = s.peerSessions q ∨
     ∃ fs, fsOpt = some fs ∧ ¬ fs.length < 6 ∧
       (probeAckSessionUpdate s q last fsOpt).peerSessions q = some fs) := by
  unfold probeAckSessionUpdate
  constructor
  · intro x hx
    repeat' first
      | split
      | dsimp only
    all_goals simp [updF, hx]
  · split
    · rename_i fs
      split
      · exact Or.inl rfl
      · rename_i hlen
        dsimp only
        by_cases hsq : s.peerSessions q ≠ some fs
        · rw [if_pos hsq]
          split
          · exact Or.inr ⟨fs, rfl, hlen, by simp [updF]⟩
          · exact Or.inr ⟨fs, rfl, hlen, by simp [updF]⟩
        · rw [if_neg hsq]
          split
          · exact Or.inl rfl
          · exact Or.inl rfl
    · exact Or.inl rfl

/-- The probe-ack session refresh keeps readiness (pointwise form). -/
lemma probeAckSU_ready (s : MainState) (q : String) (last : ProbeRec)
    (fsOpt : Option String) :
    (probeAckSessionUpdate s q last fsOpt).readyPeers = s.readyPeers :=
  (probeAckSessionUpdate_preserves s q last fsOpt).1

/-- Acceptance of a probe-ack, given the peer is not yet ready: the peer
ends up ready exactly when a probe record exists, its id and the carried
id are nonempty and equal, and the probe is at most 30000ms old. -/
lemma handleProbeAck_ready (s : MainState) (q : String) (p : Payload)
    (now : Nat) (hready : s.readyPeers q = false) :
    (handleProbeAck s q p now).readyPeers q =
      (match s.peerProbeState q, p.probeId with
       | some last, some pid =>
         decide (last.probeId ≠ "") && decide (pid ≠ "") &&
         decide (pid = last.probeId) && decide (now - last.ts ≤ 30000)
       | _, _ => false) := by
  unfold handleProbeAck
  repeat' first
    | split
    | dsimp only
  all_goals simp_all [updF, ensure_ready, probeAckSU_ready, Nat.not_lt]
  all_goals omega

/-- C3 (amended): for a not-yet-ready peer, an inbound probe-ack that
passes the addressing checks marks the peer ready if and only if its
probeId is present, nonempty and equal to the (nonempty) id of the most
recently issued probe for that peer, and that probe was issued at most
30000ms before processing; strictly older probes and mismatched or
missing ids leave the peer not ready. -/
theorem c3_probe_ack_acceptance (s : MainState) (q : String) (p : Payload)
    (now : Nat) (hq : q ≠ "") (hqm : q ≠ s.myPeerId)
    (hp : p.ptype = "probe-ack")
    (hsessOk : (optStrTruthy p.toSession &&
      decide (p.toSession ≠ some s.mySessionNonce)) = false)
    (htoOk : (optStrTruthy p.toPeer &&
      decide (p.toPeer ≠ some s.myPeerId)) = false)
    (hready : s.readyPeers q = false) :
    (onPayload s q p now).readyPeers q =
      (match s.peerProbeState q, p.probeId with
       | some last, some pid =>
         decide (last.probeId ≠ "") && decide (pid ≠ "") &&
         decide (pid = last.probeId) && decide (now - last.ts ≤ 30000)
       | _, _ => false) := by
  obtain ⟨rs1, rs2, rs3, rs4, rs5, rs6, rs7, rs8, rs9, rs10, rs11, rs12, rs13⟩ :=
    registerSeen_proj s q
  have hh : p.ptype ≠ "hello" := by rw [hp]; decide
  have hpr : p.ptype ≠ "probe" := by rw [hp]; decide
  have hon : onPayload s q p now =
      handleProbeAck (learnPeerSession (registerSeen s q) q p.fromSession)
        q p now := by
    unfold onPayload
    rw [if_neg (by
      push_neg
      exact ⟨hq, hqm⟩)]
    dsimp only
    have hsess2 : ¬ ((optStrTruthy p.toSession &&
        decide (p.toSession ≠ some s.mySessionNonce)) = true) := by
      rw [hsessOk]
      simp
    have hto2 : ¬ ((optStrTruthy p.toPeer &&
        decide (p.toPeer ≠ some s.myPeerId)) = true) := by
      rw [htoOk]
      simp
    rw [if_neg hh, if_neg hpr, rs10, if_neg hsess2, rs9, if_neg hto2]
    unfold dispatchValidated
    rw [if_pos hp]
  have hready1 :
      (learnPeerSession (registerSeen s q) q p.fromSession).readyPeers q =
        false := by
    rcases learnPeerSession_at (registerSeen s q) q p.fromSession with
      ⟨_, hr, _⟩ | ⟨fs, _, _, _, hr⟩
    · rw [hr, rs2]; exact hready
    · exact hr
  have hprobeEq :
      (learnPeerSession (registerSeen s q) q p.fromSession).peerProbeState q =
        s.peerProbeState q := by
    rw [(learnPeerSession_preserves (registerSeen s q) q p.fromSession).1, rs3]
  rw [hon, handleProbeAck_ready _ _ _ _ hready1]
  rw [hprobeEq]

/-- Counterexample to C3 as frozen: a probe-ack matching a probe issued
exactly 30000ms earlier is accepted and the peer marked ready, although
the claim requires the probe to be strictly less than 30 seconds old. -/
theorem c3_counterexample :
    (onPayload c3State "bbbbbb" c3AckPayload 30000).readyPeers "bbbbbb" =
      true ∧
    c3State.peerProbeState "bbbbbb" = some c3ProbeRec ∧
    ¬ (30000 - c3ProbeRec.ts < 30000) := by
  decide

/-- Witness for C3: the matching fresh ack at 30000ms is accepted, the
same ack at 30001ms is stale and dropped, and a mismatched ack is
dropped. -/
theorem c3_probe_ack_acceptance_witness :
    (onPayload c3State "bbbbbb" c3AckPayload 30000).readyPeers "bbbbbb" =
      true ∧
    (onPayload c3State "bbbbbb" c3AckPayload 30001).readyPeers "bbbbbb" =
      false ∧
    (onPayload c3State "bbbbbb"
      { c3AckPayload with probeId := some "p2" } 5).readyPeers "bbbbbb" =
      false :=
  ⟨(c3_probe_ack_acceptance c3State "bbbbbb" c3AckPayload 30000 (by decide)
      (by decide) (by decide) (by decide) (by decide) (by decide)).trans
      (by decide),
   (c3_probe_ack_acceptance c3State "bbbbbb" c3AckPayload 30001 (by decide)
      (by decide) (by decide) (by decide) (by decide) (by decide)).trans
      (by decide),
   (c3_probe_ack_acceptance c3State "bbbbbb"
      { c3AckPayload with probeId := some "p2" } 5 (by decide)
      (by decide) (by decide) (by decide) (by decide) (by decide)).trans
      (by decide)⟩

/-- A caught send never touches the connection map. -/
lemma sendGetD_conns (s : MainState) (t : Option String) (pt : String)
    (pid : Option String) (sd : Option String) (cd : Option (List Nat)) :
    ((sendSignal s t pt pid sd cd).getD s).peerConnections =
      s.peerConnections := by
  rcases sendSignal_getD_shape s t pt pid sd cd with h | ⟨m, h⟩ <;> rw [h]

/-- A caught send never touches the pending-candidate queues. -/
lemma sendGetD_pend (s : MainState) (t : Option String) (pt : String)
    (pid : Option String) (sd : Option String) (cd : Option (List Nat)) :
    ((sendSignal s t pt pid sd cd).getD s).pendingIce = s.pendingIce := by
  rcases sendSignal_getD_shape s t pt pid sd cd with h | ⟨m, h⟩ <;> rw [h]

/-- A caught send never touches the recorded closed generations. -/
lemma sendGetD_closed (s : MainState) (t : Option String) (pt : String)
    (pid : Option String) (sd : Option String) (cd : Option (List Nat)) :
    ((sendSignal s t pt pid sd cd).getD s).closedGens = s.closedGens := by
  rcases sendSignal_getD_shape s t pt pid sd cd with h | ⟨m, h⟩ <;> rw [h]

/-- The initiator gate of ensurePeerConnection: toward a not-ready peer
with no live connection, the initiating side creates nothing. -/
lemma ensure_gate (s : MainState) (q : String)
    (hinit : shouldInitiateWith s.myPeerId q = true)
    (hnr : s.readyPeers q = false)
    (hconn : s.peerConnections q = none ∨
      s.peerConnections q = some PCEntry.nullEntry) :
    ensurePeerConnection s q = (s, none) := by
  unfold ensurePeerConnection
  split
  · rfl
  · rcases hconn with hc | hc <;> rw [hc] <;> simp [hinit, hnr]

/-- The hello handler touches sessions and readiness only at the sender:
there it stores the carried session token, and whenever a different
truthy session was stored before, it clears readiness. -/
lemma handleHello_sr (s : MainState) (q : String) (p : Payload) (now : Nat) :
    (∀ x, x ≠ q → (handleHello s q p now).peerSessions x = s.peerSessions x ∧
      (handleHello s q p now).readyPeers x = s.readyPeers x) ∧
    (((handleHello s q p now).peerSessions q = s.peerSessions q ∧
      (handleHello s q p now).readyPeers q = s.readyPeers q) ∨
     ∃ v, p.session = some v ∧
       (handleHello s q p now).peerSessions q = some v ∧
       ((optStrTruthy (s.peerSessions q) &&
           decide (s.peerSessions q ≠ some v)) = true →
         (handleHello s q p now).readyPeers q = false)) := by
  have hmS : ∀ st, (maybeProbePeer st q now).peerSessions = st.peerSessions :=
    fun st => (maybeProbePeer_preserves st q now).1
  have hmR : ∀ st, (maybeProbePeer st q now).readyPeers = st.readyPeers :=
    fun st => (maybeProbePeer_preserves st q now).2.1
  constructor
  · intro x hx
    unfold handleHello
    split
    · exact ⟨rfl, rfl⟩
    · split
      · exact ⟨rfl, rfl⟩
      · split
        · exact ⟨rfl, rfl⟩
        · dsimp only
          constructor
          · rw [hmS]
            split <;> simp [updF, hx]
          · rw [hmR]
            split <;> simp [updF, hx]
  · unfold handleHello
    split
    · exact Or.inl ⟨rfl, rfl⟩
    · split
      · exact Or.inl ⟨rfl, rfl⟩
      · rename_i sess heq
        split
        · exact Or.inl ⟨rfl, rfl⟩
        · dsimp only
          refine Or.inr ⟨sess, heq, ?_, ?_⟩
          · rw [hmS]
            split <;> simp [updF]
          · intro hcond
            rw [hmR, if_pos hcond]
            simp [updF]

/-- The probe handler touches sessions and readiness only at the sender,
where it either leaves both alone or stores the carried fromSession and
clears readiness. -/
lemma handleProbe_sr (s : MainState) (q : String) (p : Payload) :
    (∀ x, x ≠ q → (handleProbe s q p).peerSessions x = s.peerSessions x ∧
      (handleProbe s q p).readyPeers x = s.readyPeers x) ∧
    (((handleProbe s q p).peerSessions q = s.peerSessions q ∧
      (handleProbe s q p).readyPeers q = s.readyPeers q) ∨
     ∃ fs, p.fromSession = some fs ∧ ¬ fs.length < 6 ∧
       (handleProbe s q p).peerSessions q = some fs ∧
       (handleProbe s q p).readyPeers q = false) := by
  have hshape := sendSignalToSession_getD_shape
    (learnPeerSession s q p.fromSession) q "probe-ack" p.probeId p.fromSession
  have hS : (handleProbe s q p).peerSessions =
      (learnPeerSession s q p.fromSession).peerSessions := by
    unfold handleProbe
    rcases hshape with h | ⟨m, h⟩ <;> rw [h]
  have hR : (handleProbe s q p).readyPeers =
      (learnPeerSession s q p.fromSession).readyPeers := by
    unfold handleProbe
    rcases hshape with h | ⟨m, h⟩ <;> rw [h]
  refine ⟨fun x hx => ?_, ?_⟩
  · rw [hS, hR]
    exact learnPeerSession_others s q p.fromSession x hx
  · rw [hS, hR]
    rcases learnPeerSession_at s q p.fromSession with ⟨h1, h2, _⟩ |
      ⟨fs, hfs, hlen, hset, hrdy⟩
    · exact Or.inl ⟨h1, h2⟩
    · exact Or.inr ⟨fs, hfs, hlen, hset, hrdy⟩

/-- The probe-ack handler touches sessions and readiness only at the
sender; a session it stores is the carried fromSession (length >= 6),
and readiness is either untouched or set to true by an ack that matched
the outstanding probe id within 30000ms. -/
lemma handleProbeAck_sr (s : MainState) (q : String) (p : Payload)
    (now : Nat) :
    (∀ x, x ≠ q →
      (handleProbeAck s q p now).peerSessions x = s.peerSessions x ∧
      (handleProbeAck s q p now).readyPeers x = s.readyPeers x) ∧
    ((handleProbeAck s q p now).peerSessions q = s.peerSessions q ∨
     ∃ fs, p.fromSession = some fs ∧ ¬ fs.length < 6 ∧
       (handleProbeAck s q p now).peerSessions q = some fs) ∧
    ((handleProbeAck s q p now).readyPeers q = s.readyPeers q ∨
     ((handleProbeAck s q p now).readyPeers q = true ∧
      ∃ last, s.peerProbeState q = some last ∧ last.probeId ≠ "" ∧
        p.probeId = some last.probeId ∧ now - last.ts ≤ 30000)) := by
  refine ⟨fun x hx => ?_, ?_, ?_⟩
  · unfold handleProbeAck
    split
    · exact ⟨rfl, rfl⟩
    · rename_i last hlast
      split
      · exact ⟨rfl, rfl⟩
      · split
        · exact ⟨rfl, rfl⟩
        · rename_i pid hpid
          split
          · exact ⟨rfl, rfl⟩
          · split
            · exact ⟨rfl, rfl⟩
            · dsimp only
              split
              · exact ⟨(probeAckSessionUpdate_sessions s q last
                    p.fromSession).1 x hx,
                  congrFun (probeAckSU_ready s q last p.fromSession) x⟩
              · constructor
                · split
                  · rw [ensure_sessions]
                    exact (probeAckSessionUpdate_sessions s q last
                      p.fromSession).1 x hx
                  · exact (probeAckSessionUpdate_sessions s q last
                      p.fromSession).1 x hx
                · split
                  · rw [ensure_ready]
                    show updF (probeAckSessionUpdate s q last
                      p.fromSession).readyPeers q true x = s.readyPeers x
                    simp [updF, hx, probeAckSU_ready]
                  · show updF (probeAckSessionUpdate s q last
                      p.fromSession).readyPeers q true x = s.readyPeers x
                    simp [updF, hx, probeAckSU_ready]
  · unfold handleProbeAck
    split
    · exact Or.inl rfl
    · rename_i last hlast
      split
      · exact Or.inl rfl
      · split
        · exact Or.inl rfl
        · rename_i pid hpid
          split
          · exact Or.inl rfl
          · split
            · exact Or.inl rfl
            · dsimp only
              split
              · exact (probeAckSessionUpdate_sessions s q last p.fromSession).2
              · split
                · rw [ensure_sessions]
                  exact (probeAckSessionUpdate_sessions s q last
                    p.fromSession).2
                · exact (probeAckSessionUpdate_sessions s q last
                    p.fromSession).2
  · unfold handleProbeAck
    split
    · exact Or.inl rfl
    · rename_i last hlast
      split
      · exact Or.inl rfl
      · rename_i hpidne
        split
        · exact Or.inl rfl
        · rename_i pid hpid
          split
          · exact Or.inl rfl
          · split
            · exact Or.inl rfl
            · rename_i hnene
              dsimp only
              split
              · exact Or.inl
                  (congrFun (probeAckSU_ready s q last p.fromSession) q)
              · rename_i hfresh
                refine Or.inr ⟨?_, last, hlast, hpidne, ?_, ?_⟩
                · split
                  · rw [ensure_ready]
                    show updF (probeAckSessionUpdate s q last
                      p.fromSession).readyPeers q true q = true
                    simp [updF]
                  · show updF (probeAckSessionUpdate s q last
                      p.fromSession).readyPeers q true q = true
                    simp [updF]
                · rw [hpid]
                  exact congrArg some (not_not.mp hnene)
                · exact Nat.le_of_not_lt hfresh

/-- The validated-message dispatch touches sessions and readiness only
at the sender; a session it stores is the carried fromSession, and
readiness becomes true only through an accepted probe-ack. -/
lemma dispatchValidated_sr (s1 : MainState) (q : String) (p : Payload)
    (now : Nat) :
    (∀ x, x ≠ q →
      (dispatchValidated s1 q p now).peerSessions x = s1.peerSessions x ∧
      (dispatchValidated s1 q p now).readyPeers x = s1.readyPeers x) ∧
    ((dispatchValidated s1 q p now).peerSessions q = s1.peerSessions q ∨
     ∃ fs, p.fromSession = some fs ∧ ¬ fs.length < 6 ∧
       (dispatchValidated s1 q p now).peerSessions q = some fs) ∧
    ((dispatchValidated s1 q p now).readyPeers q = s1.readyPeers q ∨
     ((dispatchValidated s1 q p now).readyPeers q = true ∧
      p.ptype = "probe-ack" ∧
      ∃ last, s1.peerProbeState q = some last ∧ last.probeId ≠ "" ∧
        p.probeId = some last.probeId ∧ now - last.ts ≤ 30000)) := by
  unfold dispatchValidated
  split
  · rename_i hpt
    obtain ⟨h1, h2, h3⟩ := handleProbeAck_sr s1 q p now
    refine ⟨h1, h2, ?_⟩
    rcases h3 with h | ⟨ht, pack⟩
    · exact Or.inl h
    · exact Or.inr ⟨ht, hpt, pack⟩
  · split
    · obtain ⟨hS, hR, _, _⟩ := handleOffer_preserves s1 q p
      exact ⟨fun x hx => ⟨congrFun hS x, congrFun hR x⟩,
        Or.inl (congrFun hS q), Or.inl (congrFun hR q)⟩
    · split
      · obtain ⟨hS, hR, _, _⟩ := handleAnswer_preserves s1 q p
        exact ⟨fun x hx => ⟨congrFun hS x, congrFun hR x⟩,
          Or.inl (congrFun hS q), Or.inl (congrFun hR q)⟩
      · split
        · obtain ⟨hS, hR, _, _⟩ := handleIce_preserves s1 q p
          exact ⟨fun x hx => ⟨congrFun hS x, congrFun hR x⟩,
            Or.inl (congrFun hS q), Or.inl (congrFun hR q)⟩
        · split
          · obtain ⟨hS, hR, _, _⟩ := handleIceBatch_preserves s1 q p
            exact ⟨fun x hx => ⟨congrFun hS x, congrFun hR x⟩,
              Or.inl (congrFun hS q), Or.inl (congrFun hR q)⟩
          · exact ⟨fun x hx => ⟨rfl, rfl⟩, Or.inl rfl, Or.inl rfl⟩

/-- Branch sweep of onPayload for sessions and readiness: other peers
than the sender are untouched; a session stored for the sender comes
from a hello's session, a probe's fromSession, or the fromSession of a
message that passed both addressing checks; and a rotated session can
only coexist with readiness through an accepted fresh probe-ack that
carries the new session. -/
lemma onPayload_sr (s : MainState) (q : String) (p : Payload) (now : Nat) :
    (∀ x, x ≠ q → (onPayload s q p now).peerSessions x = s.peerSessions x ∧
      (onPayload s q p now).readyPeers x = s.readyPeers x) ∧
    ((onPayload s q p now).peerSessions q = s.peerSessions q ∨
     (p.ptype = "hello" ∧ ∃ v, p.session = some v ∧
       (onPayload s q p now).peerSessions q = some v) ∨
     (p.ptype = "probe" ∧ ∃ v, p.fromSession = some v ∧
       (onPayload s q p now).peerSessions q = some v) ∨
     ((optStrTruthy p.toSession &&
         decide (p.toSession ≠ some s.mySessionNonce)) = false ∧
      (optStrTruthy p.toPeer && decide (p.toPeer ≠ some s.myPeerId)) = false ∧
      ∃ v, p.fromSession = some v ∧
        (onPayload s q p now).peerSessions q = some v)) ∧
    (∀ v w, s.peerSessions q = some v → v ≠ "" →
      (onPayload s q p now).peerSessions q = some w → v ≠ w →
      (onPayload s q p now).readyPeers q = true →
      p.ptype = "probe-ack" ∧ p.fromSession = some w ∧
      ∃ last, s.peerProbeState q = some last ∧ last.probeId ≠ "" ∧
        p.probeId = some last.probeId ∧ now - last.ts ≤ 30000) := by
  obtain ⟨rs1, rs2, rs3, rs4, rs5, rs6, rs7, rs8, rs9, rs10, rs11, rs12,
    rs13⟩ := registerSeen_proj s q
  by_cases hg : q = "" ∨ q = s.myPeerId
  · have he : onPayload s q p now = s := by
      unfold onPayload
      rw [if_pos hg]
    rw [he]
    refine ⟨fun x hx => ⟨rfl, rfl⟩, Or.inl rfl,
      fun v w hv _ hw hvw _ => ?_⟩
    rw [hv] at hw
    injection hw with h
    exact absurd h hvw
  · by_cases hh : p.ptype = "hello"
    · have he : onPayload s q p now =
          handleHello (registerSeen s q) q p now := by
        unfold onPayload
        rw [if_neg hg]
        dsimp only
        rw [if_pos hh]
      obtain ⟨ho, hat⟩ := handleHello_sr (registerSeen s q) q p now
      rw [he]
      refine ⟨fun x hx => ?_, ?_, ?_⟩
      · have h2 := ho x hx
        rw [rs1, rs2] at h2
        exact h2
      · rcases hat with ⟨h1, _⟩ | ⟨v, hv1, hset, _⟩
        · rw [rs1] at h1
          exact Or.inl h1
        · exact Or.inr (Or.inl ⟨hh, v, hv1, hset⟩)
      · intro v w hv hvne hw hvw hrd
        rcases hat with ⟨h1, _⟩ | ⟨u, hu, hset, hclr⟩
        · rw [h1, rs1, hv] at hw
          injection hw with h
          exact absurd h hvw
        · rw [hset] at hw
          injection hw with huw
          subst huw
          have hcond : (optStrTruthy ((registerSeen s q).peerSessions q) &&
              decide ((registerSeen s q).peerSessions q ≠ some u)) = true := by
            rw [rs1, hv]
            simp only [optStrTruthy, Bool.and_eq_true, decide_eq_true_eq]
            exact ⟨hvne, fun hc => hvw (Option.some.inj hc)⟩
          rw [hclr hcond] at hrd
          exact Bool.noConfusion hrd
    · by_cases hp : p.ptype = "probe"
      · have he : onPayload s q p now = handleProbe (registerSeen s q) q p := by
          unfold onPayload
          rw [if_neg hg]
          dsimp only
          rw [if_neg hh, if_pos hp]
        obtain ⟨ho, hat⟩ := handleProbe_sr (registerSeen s q) q p
        rw [he]
        refine ⟨fun x hx => ?_, ?_, ?_⟩
        · have h2 := ho x hx
          rw [rs1, rs2] at h2
          exact h2
        · rcases hat with ⟨h1, _⟩ | ⟨fs, hfs, _, hset, _⟩
          · rw [rs1] at h1
            exact Or.inl h1
          · exact Or.inr (Or.inr (Or.inl ⟨hp, fs, hfs, hset⟩))
        · intro v w hv hvne hw hvw hrd
          rcases hat with ⟨h1, _⟩ | ⟨fs, hfs, _, hset, hrdy⟩
          · rw [h1, rs1, hv] at hw
            injection hw with h
            exact absurd h hvw
          · rw [hrdy] at hrd
            exact Bool.noConfusion hrd
      · cases hsess : (optStrTruthy p.toSession &&
            decide (p.toSession ≠ some s.mySessionNonce)) with
        | true =>
          have he : onPayload s q p now =
              resyncPeerSession (registerSeen s q) q now := by
            unfold onPayload
            rw [if_neg hg]
            dsimp only
            rw [if_neg hh, if_neg hp, rs10, if_pos hsess]
          rw [he]
          have hS := (resyncPeerSession_preserves (registerSeen s q) q now).1
          have hR :=
            (resyncPeerSession_preserves (registerSeen s q) q now).2.1
          rw [rs1] at hS
          rw [rs2] at hR
          refine ⟨fun x hx => ⟨congrFun hS x, congrFun hR x⟩,
            Or.inl (congrFun hS q), fun v w hv _ hw hvw _ => ?_⟩
          rw [congrFun hS q, hv] at hw
          injection hw with h
          exact absurd h hvw
        | false =>
          have hsess2 : ¬ ((optStrTruthy p.toSession &&
              decide (p.toSession ≠ some s.mySessionNonce)) = true) := by
            rw [hsess]
            simp
          cases hto : (optStrTruthy p.toPeer &&
              decide (p.toPeer ≠ some s.myPeerId)) with
          | true =>
            have he : onPayload s q p now = registerSeen s q := by
              unfold onPayload
              rw [if_neg hg]
              dsimp only
              rw [if_neg hh, if_neg hp, rs10, if_neg hsess2, rs9, if_pos hto]
            rw [he, rs1, rs2]
            refine ⟨fun x hx => ⟨rfl, rfl⟩, Or.inl rfl,
              fun v w hv _ hw hvw _ => ?_⟩
            rw [hv] at hw
            injection hw with h
            exact absurd h hvw
          | false =>
            have hto2 : ¬ ((optStrTruthy p.toPeer &&
                decide (p.toPeer ≠ some s.myPeerId)) = true) := by
              rw [hto]
              simp
            have he : onPayload s q p now = dispatchValidated
                (learnPeerSession (registerSeen s q) q p.fromSession) q p
                now := by
              unfold onPayload
              rw [if_neg hg]
              dsimp only
              rw [if_neg hh, if_neg hp, rs10, if_neg hsess2, rs9, if_neg hto2]
            obtain ⟨ho, hsq, hrq⟩ := dispatchValidated_sr
              (learnPeerSession (registerSeen s q) q p.fromSession) q p now
            have hprobeSt :
                (learnPeerSession (registerSeen s q) q
                  p.fromSession).peerProbeState = s.peerProbeState := by
              rw [(learnPeerSession_preserves (registerSeen s q) q
                p.fromSession).1, rs3]
            rw [he]
            refine ⟨fun x hx => ?_, ?_, ?_⟩
            · have h2 := ho x hx
              have h3 := learnPeerSession_others (registerSeen s q) q
                p.fromSession x hx
              rw [rs1, rs2] at h3
              exact ⟨h2.1.trans h3.1, h2.2.trans h3.2⟩
            · rcases hsq with hdu | ⟨fs, hfs, hlen, hset⟩
              · rcases learnPeerSession_at (registerSeen s q) q p.fromSession
                  with ⟨h1, _, _⟩ | ⟨fs, hfs, _, hset, _⟩
                · rw [rs1] at h1
                  exact Or.inl (hdu.trans h1)
                · exact Or.inr (Or.inr (Or.inr ⟨rfl, rfl, fs, hfs,
                    hdu.trans hset⟩))
              · exact Or.inr (Or.inr (Or.inr ⟨rfl, rfl, fs, hfs, hset⟩))
            · intro v w hv hvne hw hvw hrd
              rcases learnPeerSession_at (registerSeen s q) q p.fromSession
                with ⟨h1, h2, hreason⟩ | ⟨fs, hfs, hlen, hset, hrdy⟩
              · rw [rs1] at h1
                rcases hsq with hdu | ⟨fs, hfs, hlen2, hset2⟩
                · rw [hdu, h1, hv] at hw
                  injection hw with h
                  exact absurd h hvw
                · rcases hreason fs hfs with hl | hprev
                  · exact absurd hl hlen2
                  · rw [rs1, hv] at hprev
                    injection hprev with h
                    rw [hset2] at hw
                    injection hw with h2b
                    exact absurd (h.trans h2b) hvw
              · rcases hrq with hru | ⟨_, hpt, last, hlast, hne, hpid, hts⟩
                · rw [hru, hrdy] at hrd
                  exact Bool.noConfusion hrd
                · have hfw : fs = w := by
                    rcases hsq with hdu | ⟨fs2, hfs2, _, hset2⟩
                    · rw [hdu, hset] at hw
                      exact Option.some.inj hw
                    · rw [hfs] at hfs2
                      injection hfs2 with h12
                      rw [hset2] at hw
                      exact h12.trans (Option.some.inj hw)
                  subst hfw
                  refine ⟨hpt, hfs, last, ?_, hne, hpid, hts⟩
                  rw [hprobeSt] at hlast
                  exact hlast

/-- Counterexample to C4 as frozen: an addressed probe (its to field is
present) is the first source of a stored session for the sender, so
broadcasts are not the only first source. -/
theorem c4_counterexample :
    mainBase.peerSessions "bbbbbb" = none ∧
    c4ProbePayload.toPeer = some "aaaaaa" ∧
    (onPayload mainBase "bbbbbb" c4ProbePayload 0).peerSessions "bbbbbb" =
      some "sessb1" := by
  decide

/-- C4 (amended): a session value first stored for a peer comes from
that peer itself, and only from a hello's session field, a probe's
fromSession, or the fromSession of a message that passed both the
toSession and the to addressing checks. -/
theorem c4_first_session_sources (s : MainState) (q : String) (p : Payload)
    (now : Nat) (x : String) (v : String)
    (h0 : s.peerSessions x = none)
    (h1 : (onPayload s q p now).peerSessions x = some v) :
    x = q ∧
    ((p.ptype = "hello" ∧ p.session = some v) ∨
     (p.ptype = "probe" ∧ p.fromSession = some v) ∨
     ((optStrTruthy p.toSession &&
         decide (p.toSession ≠ some s.mySessionNonce)) = false ∧
      (optStrTruthy p.toPeer && decide (p.toPeer ≠ some s.myPeerId)) = false ∧
      p.fromSession = some v)) := by
  obtain ⟨ho, hsq, _⟩ := onPayload_sr s q p now
  by_cases hx : x = q
  · subst hx
    refine ⟨rfl, ?_⟩
    rcases hsq with hu | ⟨hh, u, hu1, hu2⟩ | ⟨hp, u, hu1, hu2⟩ |
      ⟨hc1, hc2, u, hu1, hu2⟩
    · rw [hu, h0] at h1
      exact Option.noConfusion h1
    · rw [hu2] at h1
      exact Or.inl ⟨hh, hu1.trans (congrArg some (Option.some.inj h1))⟩
    · rw [hu2] at h1
      exact Or.inr (Or.inl ⟨hp,
        hu1.trans (congrArg some (Option.some.inj h1))⟩)
    · rw [hu2] at h1
      exact Or.inr (Or.inr ⟨hc1, hc2,
        hu1.trans (congrArg some (Option.some.inj h1))⟩)
  · rw [(ho x hx).1, h0] at h1
    exact Option.noConfusion h1

/-- Witness for C4: the addressed probe of the counterexample is
classified as a probe-sourced first learning. -/
theorem c4_first_session_sources_witness :
    "bbbbbb" = "bbbbbb" ∧
    ((c4ProbePayload.ptype = "hello" ∧
        c4ProbePayload.session = some "sessb1") ∨
     (c4ProbePayload.ptype = "probe" ∧
        c4ProbePayload.fromSession = some "sessb1") ∨
     ((optStrTruthy c4ProbePayload.toSession &&
         decide (c4ProbePayload.toSession ≠ some mainBase.mySessionNonce)) =
           false ∧
      (optStrTruthy c4ProbePayload.toPeer &&
         decide (c4ProbePayload.toPeer ≠ some mainBase.myPeerId)) = false ∧
      c4ProbePayload.fromSession = some "sessb1")) :=
  c4_first_session_sources mainBase "bbbbbb" c4ProbePayload 0 "bbbbbb"
    "sessb1" (by decide) (by decide)

/-- C10: when processing a message rotates the stored session of a peer
to a different value, the final state has that peer ready only if the
message is that peer's own probe-ack, carrying the new session, that
matched the outstanding probe id within 30000ms (a completed fresh probe
round-trip for the new session); independently, the initiating side
never creates a connection toward a peer that is not ready. -/
theorem c10_rotation_gates_initiator (s : MainState) (q : String)
    (p : Payload) (now : Nat) (x v w : String)
    (hv : s.peerSessions x = some v) (hvne : v ≠ "")
    (hw : (onPayload s q p now).peerSessions x = some w) (hvw : v ≠ w) :
    ((onPayload s q p now).readyPeers x = true →
      x = q ∧ p.ptype = "probe-ack" ∧ p.fromSession = some w ∧
      ∃ last, s.peerProbeState x = some last ∧ last.probeId ≠ "" ∧
        p.probeId = some last.probeId ∧ now - last.ts ≤ 30000) ∧
    (∀ s2 : MainState, shouldInitiateWith s2.myPeerId x = true →
      s2.readyPeers x = false →
      (s2.peerConnections x = none ∨
        s2.peerConnections x = some PCEntry.nullEntry) →
      ensurePeerConnection s2 x = (s2, none)) := by
  obtain ⟨ho, _, hF2⟩ := onPayload_sr s q p now
  constructor
  · intro hrd
    by_cases hx : x = q
    · subst hx
      exact ⟨rfl, hF2 v w hv hvne hw hvw hrd⟩
    · rw [(ho x hx).1, hv] at hw
      injection hw with h
      exact absurd h hvw
  · intro s2 hinit hnr hconn
    exact ensure_gate s2 x hinit hnr hconn

/-- Witness for C10: an ack matching the outstanding probe but carrying
the rotated session "sessb2" is the only way "bbbbbb" stays ready, and
the gate holds at the base state. -/
theorem c10_rotation_gates_initiator_witness :
    ("bbbbbb" = "bbbbbb" ∧ c10AckPayload.ptype = "probe-ack" ∧
     c10AckPayload.fromSession = some "sessb2" ∧
     ∃ last, c3State.peerProbeState "bbbbbb" = some last ∧
       last.probeId ≠ "" ∧ c10AckPayload.probeId = some last.probeId ∧
       5 - last.ts ≤ 30000) ∧
    ensurePeerConnection mainBase "bbbbbb" = (mainBase, none) :=
  ⟨(c10_rotation_gates_initiator c3State "bbbbbb" c10AckPayload 5 "bbbbbb"
      "sessb1" "sessb2" (by decide) (by decide) (by decide) (by decide)).1
      (by decide),
   (c10_rotation_gates_initiator c3State "bbbbbb" c10AckPayload 5 "bbbbbb"
      "sessb1" "sessb2" (by decide) (by decide) (by decide) (by decide)).2
      mainBase (by decide) (by decide) (Or.inl (by decide))⟩

/-- On the responding side (not the deterministic initiator), ensure
always creates a fresh stable connection when none is live, regardless
of readiness. -/
lemma ensure_responder (s : MainState) (q : String)
    (hg : ¬(q = "" ∨ q = s.myPeerId))
    (hresp : shouldInitiateWith s.myPeerId q = false)
    (hc : s.peerConnections q = none ∨
      s.peerConnections q = some PCEntry.nullEntry) :
    ∃ st, ensurePeerConnection s q =
        (st, some { gen := s.nextGen, sig := Sig.stable,
                    remoteDescSet := false, applied := [] }) ∧
      st.peerConnections q =
        some (.pc { gen := s.nextGen, sig := Sig.stable,
                    remoteDescSet := false, applied := [] }) ∧
      st.myPeerId = s.myPeerId ∧ st.pendingIce q = [] ∧
      st.closedGens = s.closedGens := by
  unfold ensurePeerConnection createPeerConnection
  rw [if_neg hg]
  rcases hc with hc | hc <;> rw [hc, hresp] <;>
    exact ⟨_, rfl, by simp [updF], rfl, by simp [updF], rfl⟩

/-- On the responding side, a reset closes the owned connection,
discards its queued candidates and recreates a fresh stable
connection. -/
lemma reset_responder (s : MainState) (q : String) (c : Conn)
    (hg : ¬(q = "" ∨ q = s.myPeerId))
    (hresp : shouldInitiateWith s.myPeerId q = false)
    (hc : s.peerConnections q = some (.pc c)) :
    ∃ st cF, resetPeerConnection s q = (st, some cF) ∧
      st.peerConnections q = some (.pc cF) ∧ cF.sig = Sig.stable ∧
      st.closedGens = s.closedGens ++ [c.gen] ∧ st.pendingIce q = [] ∧
      cF.gen = s.nextGen ∧ cF.remoteDescSet = false ∧ cF.applied = [] := by
  unfold resetPeerConnection
  rw [hc]
  dsimp only
  obtain ⟨st, hens, hconn, hmy, hpend, hclosed⟩ := ensure_responder
    { s with
      closedGens := s.closedGens ++ [c.gen],
      peerConnections := updF s.peerConnections q none,
      pendingIce := updF s.pendingIce q [],
      dataChannelsN := updF s.dataChannelsN q false } q hg hresp
    (Or.inl (by simp [updF]))
  exact ⟨st, _, hens, hconn, rfl, hclosed, hpend, rfl, rfl, rfl⟩

/-- Flushing queued candidates keeps a live connection live and
preserves its signaling state and remote-description flag. -/
lemma flush_conn_shape (s : MainState) (q : String) (c : Conn)
    (hc : s.peerConnections q = some (.pc c)) :
    ∃ c2, (flushPendingIce s q).peerConnections q = some (.pc c2) ∧
      c2.sig = c.sig ∧ c2.remoteDescSet = c.remoteDescSet := by
  unfold flushPendingIce
  rw [hc]
  dsimp only
  split
  · exact ⟨c, hc, rfl, rfl⟩
  · split
    · exact ⟨c, hc, rfl, rfl⟩
    · exact ⟨{ c with applied := c.applied ++ s.pendingIce q },
        by simp [updF], rfl, rfl⟩

/-- Without a collision (the ensured connection is stable), the offer
handler proceeds directly to the accept tail. -/
lemma handleOffer_no_collision (s : MainState) (q : String) (p : Payload)
    (st : MainState) (c : Conn)
    (hens : ensurePeerConnection s q = (st, some c))
    (hsig : c.sig = Sig.stable) :
    handleOffer s q p = offerAccept st q p := by
  unfold handleOffer
  rw [hens]
  simp [hsig]

/-- On a collision, the polite side resets its in-flight session and
proceeds to the accept tail on the reset state. -/
lemma handleOffer_collision_polite (s : MainState) (q : String) (p : Payload)
    (st : MainState) (c : Conn)
    (hens : ensurePeerConnection s q = (st, some c))
    (hsig : c.sig ≠ Sig.stable)
    (hpol : isPoliteFor st.myPeerId q = true)
    (st2 : MainState) (c2 : Conn)
    (hreset : resetPeerConnection st q = (st2, some c2)) :
    handleOffer s q p = offerAccept st2 q p := by
  unfold handleOffer
  rw [hens]
  simp [hsig, hpol, hreset]

/-- On a collision, the impolite side ignores the incoming offer
outright: the state is returned unchanged. -/
lemma handleOffer_collision_impolite (s : MainState) (q : String)
    (p : Payload) (c : Conn)
    (hens : ensurePeerConnection s q = (s, some c))
    (hsig : c.sig ≠ Sig.stable)
    (hpol : isPoliteFor s.myPeerId q = false) :
    handleOffer s q p = s := by
  unfold handleOffer
  rw [hens]
  simp [hsig, hpol]

/-- The accept tail on a stable connection always applies the remote
offer and answers: the peer ends with a live connection whose remote
description is set and whose signaling state is back to stable. -/
lemma offerAccept_accepts (s4 : MainState) (q : String) (p : Payload)
    (c : Conn) (hc : s4.peerConnections q = some (.pc c))
    (hsig : c.sig = Sig.stable)
    (hsdp : (match p.sdpType with
             | some t => t ≠ "" && t ≠ "offer"
             | none => false) = false) :
    ∃ c2, (offerAccept s4 q p).peerConnections q = some (.pc c2) ∧
      c2.sig = Sig.stable ∧ c2.remoteDescSet = true := by
  have happ : applyRemoteOffer c =
      some { c with sig := Sig.haveRemoteOffer, remoteDescSet := true } := by
    unfold applyRemoteOffer
    rw [if_pos hsig]
  have hsdp2 : ¬ ((match p.sdpType with
      | some t => t ≠ "" && t ≠ "offer"
      | none => false) = true) := by
    rw [hsdp]
    simp
  unfold offerAccept
  rw [hc]
  dsimp only
  rw [if_neg hsdp2, happ]
  dsimp only
  obtain ⟨c4, hc4, hsig4, hrem4⟩ := flush_conn_shape
    { s4 with peerConnections := updF s4.peerConnections q (some (.pc { c with sig := Sig.haveRemoteOffer, remoteDescSet := true })) } q
    { c with sig := Sig.haveRemoteOffer, remoteDescSet := true }
    (by simp [updF])
  rw [hc4]
  dsimp only
  have hsig4b : c4.sig = Sig.haveRemoteOffer := hsig4
  rw [if_neg (not_not.mpr hsig4b)]
  rw [sendGetD_conns]
  refine ⟨{ c4 with sig := Sig.stable }, by simp [updF], rfl, ?_⟩
  exact hrem4

/-- The accept tail on a stable connection with an empty candidate
queue: the exact resulting connection and the untouched closed-gen
log. -/
lemma offerAccept_exact (s4 : MainState) (q : String) (p : Payload)
    (c : Conn) (hc : s4.peerConnections q = some (.pc c))
    (hsig : c.sig = Sig.stable) (hpend : s4.pendingIce q = [])
    (hsdp : (match p.sdpType with
             | some t => t ≠ "" && t ≠ "offer"
             | none => false) = false) :
    (offerAccept s4 q p).peerConnections q =
      some (.pc { c with sig := Sig.stable, remoteDescSet := true }) ∧
    (offerAccept s4 q p).closedGens = s4.closedGens := by
  have happ : applyRemoteOffer c =
      some { c with sig := Sig.haveRemoteOffer, remoteDescSet := true } := by
    unfold applyRemoteOffer
    rw [if_pos hsig]
  have hsdp2 : ¬ ((match p.sdpType with
      | some t => t ≠ "" && t ≠ "offer"
      | none => false) = true) := by
    rw [hsdp]
    simp
  have hflush : flushPendingIce
      { s4 with peerConnections := updF s4.peerConnections q (some (.pc { c with sig := Sig.haveRemoteOffer, remoteDescSet := true })) } q =
      { s4 with peerConnections := updF s4.peerConnections q (some (.pc { c with sig := Sig.haveRemoteOffer, remoteDescSet := true })) } := by
    unfold flushPendingIce
    simp [updF, hpend]
  have hc4 : ({ s4 with peerConnections := updF s4.peerConnections q (some (.pc { c with sig := Sig.haveRemoteOffer, remoteDescSet := true })) }).peerConnections q =
      some (.pc { c with sig := Sig.haveRemoteOffer, remoteDescSet := true }) := by
    simp [updF]
  have hne : ¬ (({ c with sig := Sig.haveRemoteOffer, remoteDescSet := true } : Conn).sig ≠ Sig.haveRemoteOffer) := by
    simp
  unfold offerAccept
  rw [hc]
  dsimp only
  rw [if_neg hsdp2, happ]
  dsimp only
  rw [hflush, hc4]
  dsimp only
  rw [if_neg hne]
  constructor
  · rw [sendGetD_conns]
    simp [updF]
  · rw [sendGetD_closed]

/-- An incoming well-typed offer on the responding side always ends with
a live stable connection whose remote description is set, regardless of
the readiness or prior connection state for the sender. -/
lemma handleOffer_responder (s : MainState) (q : String) (p : Payload)
    (hg : ¬(q = "" ∨ q = s.myPeerId))
    (hresp : shouldInitiateWith s.myPeerId q = false)
    (hsdp : (match p.sdpType with
             | some t => t ≠ "" && t ≠ "offer"
             | none => false) = false) :
    ∃ c2, (handleOffer s q p).peerConnections q = some (.pc c2) ∧
      c2.sig = Sig.stable ∧ c2.remoteDescSet = true := by
  cases hc0 : s.peerConnections q with
  | none =>
    obtain ⟨st, hens, hconn, hmy, _, _⟩ := ensure_responder s q hg hresp
      (Or.inl hc0)
    rw [handleOffer_no_collision s q p st _ hens rfl]
    exact offerAccept_accepts st q p _ hconn rfl hsdp
  | some pe =>
    cases pe with
    | nullEntry =>
      obtain ⟨st, hens, hconn, hmy, _, _⟩ := ensure_responder s q hg hresp
        (Or.inr hc0)
      rw [handleOffer_no_collision s q p st _ hens rfl]
      exact offerAccept_accepts st q p _ hconn rfl hsdp
    | pc c =>
      have hens : ensurePeerConnection s q = (s, some c) := by
        unfold ensurePeerConnection
        rw [if_neg hg, hc0]
      by_cases hsig : c.sig = Sig.stable
      · rw [handleOffer_no_collision s q p s c hens hsig]
        exact offerAccept_accepts s q p c hc0 hsig hsdp
      · have hpol : isPoliteFor s.myPeerId q = true := by
          unfold isPoliteFor
          rw [hresp]
          rfl
        obtain ⟨st2, cF, hreset, hconn2, hsigF, _, _, _, _, _⟩ :=
          reset_responder s q c hg hresp hc0
        rw [handleOffer_collision_polite s q p s c hens hsig hpol st2 cF
          hreset]
        exact offerAccept_accepts st2 q p cF hconn2 hsigF hsdp

/-- C5: the initiating side creates a negotiation session for a peer
only when that peer is ready (toward a not-ready peer with no live
connection, ensure creates nothing), while the responding side, on a
well-typed incoming offer, always ends with a live stable connection
whose remote description is set, regardless of local readiness. -/
theorem c5_initiator_gate_responder_accepts (s : MainState) (q : String)
    (p : Payload)
    (hg : ¬(q = "" ∨ q = s.myPeerId))
    (hresp : shouldInitiateWith s.myPeerId q = false)
    (hsdp : (match p.sdpType with
             | some t => t ≠ "" && t ≠ "offer"
             | none => false) = false) :
    (∀ s2 : MainState, ∀ x : String,
      shouldInitiateWith s2.myPeerId x = true →
      s2.readyPeers x = false →
      (s2.peerConnections x = none ∨
        s2.peerConnections x = some PCEntry.nullEntry) →
      ensurePeerConnection s2 x = (s2, none)) ∧
    ∃ c2, (handleOffer s q p).peerConnections q = some (.pc c2) ∧
      c2.sig = Sig.stable ∧ c2.remoteDescSet = true :=
  ⟨fun s2 x h1 h2 h3 => ensure_gate s2 x h1 h2 h3,
   handleOffer_responder s q p hg hresp hsdp⟩

/-- Witness for C5: "bbbbbb" (the responder toward "aaaaaa") accepts an
offer although "aaaaaa" is not in its ready set. -/
theorem c5_initiator_gate_responder_accepts_witness :
    (∀ s2 : MainState, ∀ x : String,
      shouldInitiateWith s2.myPeerId x = true →
      s2.readyPeers x = false →
      (s2.peerConnections x = none ∨
        s2.peerConnections x = some PCEntry.nullEntry) →
      ensurePeerConnection s2 x = (s2, none)) ∧
    ∃ c2, (handleOffer c5StateB "aaaaaa" c2Offer).peerConnections "aaaaaa" =
        some (.pc c2) ∧ c2.sig = Sig.stable ∧ c2.remoteDescSet = true :=
  c5_initiator_gate_responder_accepts c5StateB "aaaaaa" c2Offer (by decide)
    (by decide) (by decide)

/-- C2: in an offer collision (both sides hold a local offer), the
impolite side returns its state unchanged, the polite side records the
closed generation of its own in-flight connection and accepts the
incoming offer into a fresh stable connection with the remote
description set, and the impolite side's answer handling brings its
connection back to stable as well. -/
theorem c2_offer_collision (sA sB : MainState) (a b : String) (cA cB : Conn)
    (p1 p2 pAns : Payload)
    (hA : sA.myPeerId = a) (hB : sB.myPeerId = b)
    (hinitA : shouldInitiateWith a b = true)
    (hinitB : shouldInitiateWith b a = false)
    (ha : ¬(a = "" ∨ a = b)) (hb : ¬(b = "" ∨ b = a))
    (hcA : sA.peerConnections b = some (.pc cA))
    (hsigA : cA.sig = Sig.haveLocalOffer)
    (hcB : sB.peerConnections a = some (.pc cB))
    (hsigB : cB.sig = Sig.haveLocalOffer)
    (hsdp2 : (match p2.sdpType with
              | some t => t ≠ "" && t ≠ "offer"
              | none => false) = false)
    (hansT : (match pAns.sdpType with
              | some t => t ≠ "" && t ≠ "answer"
              | none => false) = false)
    (hpendA : sA.pendingIce b = []) :
    handleOffer sA b p1 = sA ∧
    ((handleOffer sB a p2).peerConnections a =
        some (.pc { gen := sB.nextGen, sig := Sig.stable,
                    remoteDescSet := true, applied := [] }) ∧
     (handleOffer sB a p2).closedGens = sB.closedGens ++ [cB.gen]) ∧
    (handleAnswer sA b pAns).peerConnections b =
      some (.pc { cA with sig := Sig.stable, remoteDescSet := true }) := by
  have hgA : ¬(b = "" ∨ b = sA.myPeerId) := by
    rw [hA]
    exact hb
  have hgB : ¬(a = "" ∨ a = sB.myPeerId) := by
    rw [hB]
    exact ha
  have hensA : ensurePeerConnection sA b = (sA, some cA) := by
    unfold ensurePeerConnection
    rw [if_neg hgA, hcA]
  have hensB : ensurePeerConnection sB a = (sB, some cB) := by
    unfold ensurePeerConnection
    rw [if_neg hgB, hcB]
  refine ⟨?_, ?_, ?_⟩
  · have hpolA : isPoliteFor sA.myPeerId b = false := by
      unfold isPoliteFor
      rw [hA, hinitA]
      rfl
    exact handleOffer_collision_impolite sA b p1 cA hensA
      (by rw [hsigA]; decide) hpolA
  · have hrespB : shouldInitiateWith sB.myPeerId a = false := by
      rw [hB]
      exact hinitB
    have hpolB : isPoliteFor sB.myPeerId a = true := by
      unfold isPoliteFor
      rw [hrespB]
      rfl
    obtain ⟨st2, cF, hreset, hconn2, hsigF, hclosed, hpend2, hgen, hrem,
      happl⟩ := reset_responder sB a cB hgB hrespB hcB
    rw [handleOffer_collision_polite sB a p2 sB cB hensB
      (by rw [hsigB]; decide) hpolB st2 cF hreset]
    obtain ⟨hacc1, hacc2⟩ := offerAccept_exact st2 a p2 cF hconn2 hsigF
      hpend2 hsdp2
    constructor
    · rw [hacc1]
      have hcf : ({ cF with sig := Sig.stable, remoteDescSet := true } :
          Conn) = { gen := sB.nextGen, sig := Sig.stable,
                    remoteDescSet := true, applied := [] } := by
        rw [← hgen, ← happl]
      rw [hcf]
    · rw [hacc2, hclosed]
  · have hans2 : ¬ ((match pAns.sdpType with
        | some t => t ≠ "" && t ≠ "answer"
        | none => false) = true) := by
      rw [hansT]
      simp
    have hflushA : flushPendingIce { sA with peerConnections := updF sA.peerConnections b (some (.pc { cA with sig := Sig.stable, remoteDescSet := true })) } b = { sA with peerConnections := updF sA.peerConnections b (some (.pc { cA with sig := Sig.stable, remoteDescSet := true })) } := by
      unfold flushPendingIce
      simp [updF, hpendA]
    unfold handleAnswer
    rw [hcA]
    dsimp only
    rw [if_neg hans2]
    rw [if_neg (not_not.mpr hsigA)]
    rw [hflushA]
    simp [updF]

/-- Witness for C2: concrete collision between "aaaaaa" (impolite) and
"bbbbbb" (polite), both holding a local offer of generation 0. -/
theorem c2_offer_collision_witness :
    handleOffer c2StateA "bbbbbb" c2Offer = c2StateA ∧
    ((handleOffer c2StateB "aaaaaa" c2Offer).peerConnections "aaaaaa" =
        some (.pc { gen := c2StateB.nextGen, sig := Sig.stable,
                    remoteDescSet := true, applied := [] }) ∧
     (handleOffer c2StateB "aaaaaa" c2Offer).closedGens =
        c2StateB.closedGens ++ [c2Conn.gen]) ∧
    (handleAnswer c2StateA "bbbbbb" c2Answer).peerConnections "bbbbbb" =
      some (.pc { c2Conn with sig := Sig.stable, remoteDescSet := true }) :=
  c2_offer_collision c2StateA c2StateB "aaaaaa" "bbbbbb" c2Conn c2Conn
    c2Offer c2Offer c2Answer (by decide) (by decide) (by decide) (by decide)
    (by decide) (by decide) (by decide) (by decide) (by decide) (by decide)
    (by decide) (by decide) (by decide)

end UniWRTC
